import Mathlib

/-!
# Verification of the impression/affection plugin core

A shallow embedding, over `List Char` texts and rational timestamps/scores,
of the action-check relay (planner → replyer → send) and of the
impression/affection update orchestrator from `plugin.py`, together with
theorems settling the specification claims about them.

Python strings are modelled as `List Char`; Python floats occurring as
timestamps and weight scores are modelled as `ℚ` (they only ever enter
order comparisons and subtractions here).
-/

namespace ImpressionPlugin

/-! ## Python string primitives

The characters treated as whitespace by Python `str.strip` / `str.lstrip` /
`str.rstrip` and by the regex class `\s` on `str` patterns. -/

/-- The whitespace characters of Python `str` (ASCII whitespace, the C1
control whitespace, and the Unicode space separators). -/
def pySpaceChars : List Char :=
  [' ', '\t', '\n', '\r', Char.ofNat 0x0b, Char.ofNat 0x0c,
   Char.ofNat 0x1c, Char.ofNat 0x1d, Char.ofNat 0x1e, Char.ofNat 0x1f,
   Char.ofNat 0x85, Char.ofNat 0xa0, Char.ofNat 0x1680,
   Char.ofNat 0x2000, Char.ofNat 0x2001, Char.ofNat 0x2002, Char.ofNat 0x2003,
   Char.ofNat 0x2004, Char.ofNat 0x2005, Char.ofNat 0x2006, Char.ofNat 0x2007,
   Char.ofNat 0x2008, Char.ofNat 0x2009, Char.ofNat 0x200a,
   Char.ofNat 0x2028, Char.ofNat 0x2029, Char.ofNat 0x202f,
   Char.ofNat 0x205f, Char.ofNat 0x3000]

/-- Whether `c` is Python-whitespace. -/
def isPySpace (c : Char) : Bool := pySpaceChars.contains c

/-- Python `str.lstrip()` (no argument: strip leading whitespace). -/
def pyLStrip (l : List Char) : List Char := l.dropWhile isPySpace

/-- Python `str.rstrip()` (no argument: strip trailing whitespace). -/
def pyRStrip (l : List Char) : List Char := (l.reverse.dropWhile isPySpace).reverse

/-- Python `str.strip()` (no argument: strip whitespace on both ends). -/
def pyStrip (l : List Char) : List Char := pyRStrip (pyLStrip l)

/-- Python `str.strip("\n")`: strip leading and trailing newline characters. -/
def pyStripNl (l : List Char) : List Char :=
  ((l.dropWhile (· == '\n')).reverse.dropWhile (· == '\n')).reverse

/-- Python `str.lower()` (the protocol tokens are ASCII, so ASCII lowering
is the faithful fragment). -/
def pyLower (l : List Char) : List Char := l.map Char.toLower

/-- Python `needle in hay` substring membership on strings. -/
def pyContains (hay needle : List Char) : Bool :=
  hay.tails.any (fun t => needle.isPrefixOf t)

/-! ## JSON values and `json.loads`

`json.loads` applied to the single-line object captured by the marker regex.
Integer and non-integer numeric literals are distinguished exactly as Python
distinguishes `int` and `float` results of `json.loads`. -/

/-- A parsed JSON value, as produced by Python `json.loads`. -/
inductive Json where
  | null : Json
  | bool (b : Bool) : Json
  | int (i : ℤ) : Json
  | float (q : ℚ) : Json
  | str (s : List Char) : Json
  | arr (xs : List Json) : Json
  | obj (kvs : List (List Char × Json)) : Json

/-- JSON inter-token whitespace accepted by `json.loads` (space, tab,
newline, carriage return). -/
def isJsonWs (c : Char) : Bool := c == ' ' || c == '\t' || c == '\n' || c == '\r'

/-- Parse one JSON string body after the opening quote: returns the decoded
characters and the remainder after the closing quote.  Control characters
below U+0020 are rejected (strict mode of `json.loads`). -/
def parseJsonString : List Char → Option (List Char × List Char)
  | [] => none
  | c :: rest =>
    if c == '"' then some ([], rest)
    else if c.toNat < 0x20 then none
    else if c == '\\' then
      match rest with
      | [] => none
      | e :: rest2 =>
        let dec : Option Char :=
          if e == '"' then some '"'
          else if e == '\\' then some '\\'
          else if e == '/' then some '/'
          else if e == 'b' then some (Char.ofNat 8)
          else if e == 'f' then some (Char.ofNat 12)
          else if e == 'n' then some '\n'
          else if e == 'r' then some '\r'
          else if e == 't' then some '\t'
          else none
        match dec with
        | some d =>
          match parseJsonString rest2 with
          | some (s, rem) => some (d :: s, rem)
          | none => none
        | none =>
          if e == 'u' then
            match rest2 with
            | h1 :: h2 :: h3 :: h4 :: rest3 =>
              let hex? : Char → Option Nat := fun h =>
                if '0' ≤ h ∧ h ≤ '9' then some (h.toNat - 48)
                else if 'a' ≤ h ∧ h ≤ 'f' then some (h.toNat - 87)
                else if 'A' ≤ h ∧ h ≤ 'F' then some (h.toNat - 55)
                else none
              match hex? h1, hex? h2, hex? h3, hex? h4 with
              | some a, some b, some c2, some d =>
                match parseJsonString rest3 with
                | some (s, rem) =>
                  some (Char.ofNat (((a * 16 + b) * 16 + c2) * 16 + d) :: s, rem)
                | none => none
              | _, _, _, _ => none
            | _ => none
          else none
    else
      match parseJsonString rest with
      | some (s, rem) => some (c :: s, rem)
      | none => none

/-- Digit run: leading decimal digits and the remainder. -/
def takeDigits (l : List Char) : List Char × List Char :=
  (l.takeWhile (fun c => '0' ≤ c ∧ c ≤ '9'), l.dropWhile (fun c => '0' ≤ c ∧ c ≤ '9'))

/-- Numeric value of a digit run. -/
def digitsToNat (ds : List Char) : ℕ :=
  ds.foldl (fun acc c => acc * 10 + (c.toNat - 48)) 0

/-- Parse a JSON number token (grammar of RFC 8259, as `json.loads` accepts:
optional minus, integer part without leading zeros, optional fraction,
optional exponent).  An integer literal yields `Json.int`; a literal with a
fraction or exponent yields `Json.float`, mirroring the `int`/`float` split
of Python `json.loads`. -/
def parseJsonNumber (l : List Char) : Option (Json × List Char) :=
  let (neg, l1) := match l with
    | '-' :: r => (true, r)
    | _ => (false, l)
  let (ds, l2) := takeDigits l1
  if ds = [] then none
  else if ds.length > 1 ∧ ds.headI = '0' then none
  else
    let ip : ℤ := (digitsToNat ds : ℤ)
    let (frac, l3) := match l2 with
      | '.' :: r =>
        let (fs, r2) := takeDigits r
        (some fs, r2)
      | _ => (none, l2)
    match frac with
    | some [] => none
    | _ =>
      let (expPart, l4) := match l3 with
        | e :: r =>
          if e == 'e' || e == 'E' then
            let sr : Bool × List Char := match r with
              | '+' :: r2 => (false, r2)
              | '-' :: r2 => (true, r2)
              | _ => (false, r)
            let (es, r3) := takeDigits sr.2
            if es = [] then (none, l3) else (some (sr.1, digitsToNat es), r3)
          else (none, l3)
        | _ => (none, l3)
      match frac, expPart with
      | none, none => some (if neg then Json.int (-ip) else Json.int ip, l2)
      | _, _ =>
        let fs := frac.getD []
        let mant : ℚ := (ip : ℚ) + (digitsToNat fs : ℚ) / ((10 : ℚ) ^ fs.length)
        let mant2 : ℚ := if neg then -mant else mant
        let q : ℚ := match expPart with
          | some (true, e) => mant2 / (10 : ℚ) ^ e
          | some (false, e) => mant2 * (10 : ℚ) ^ e
          | none => mant2
        match expPart with
        | none => some (Json.float q, l3)
        | some _ => some (Json.float q, l4)

mutual

/-- Parse one JSON value at the head of the input (leading whitespace already
consumed); `fuel` bounds the nesting recursion. -/
def parseJsonValue : ℕ → List Char → Option (Json × List Char)
  | 0, _ => none
  | _ + 1, [] => none
  | fuel + 1, c :: rest =>
    if c == '"' then
      match parseJsonString rest with
      | some (s, rem) => some (Json.str s, rem)
      | none => none
    else if c == '{' then
      parseJsonMembers fuel (rest.dropWhile isJsonWs) true
    else if c == '[' then
      parseJsonElements fuel (rest.dropWhile isJsonWs) true
    else if c == 't' then
      if "rue".data.isPrefixOf rest then some (Json.bool true, rest.drop 3) else none
    else if c == 'f' then
      if "alse".data.isPrefixOf rest then some (Json.bool false, rest.drop 4) else none
    else if c == 'n' then
      if "ull".data.isPrefixOf rest then some (Json.null, rest.drop 3) else none
    else
      parseJsonNumber (c :: rest)

/-- Parse the members of a JSON object after `{` (whitespace consumed);
`first` marks whether no member has been read yet (so `}` may follow
directly). -/
def parseJsonMembers : ℕ → List Char → Bool → Option (Json × List Char)
  | 0, _, _ => none
  | _ + 1, [], _ => none
  | fuel + 1, c :: rest, first =>
    if c == '}' && first then some (Json.obj [], rest)
    else
      if c == '"' then
        match parseJsonString rest with
        | some (k, rem) =>
          match (rem.dropWhile isJsonWs) with
          | ':' :: rem2 =>
            match parseJsonValue fuel (rem2.dropWhile isJsonWs) with
            | some (v, rem3) =>
              match (rem3.dropWhile isJsonWs) with
              | ',' :: rem4 =>
                match parseJsonMembers fuel (rem4.dropWhile isJsonWs) false with
                | some (Json.obj kvs, rem5) => some (Json.obj ((k, v) :: kvs), rem5)
                | _ => none
              | '}' :: rem4 => some (Json.obj [(k, v)], rem4)
              | _ => none
            | none => none
          | _ => none
        | none => none
      else none

/-- Parse the elements of a JSON array after `[` (whitespace consumed). -/
def parseJsonElements : ℕ → List Char → Bool → Option (Json × List Char)
  | 0, _, _ => none
  | _ + 1, [], _ => none
  | fuel + 1, c :: rest, first =>
    if c == ']' && first then some (Json.arr [], rest)
    else
      match parseJsonValue fuel (c :: rest) with
      | some (v, rem) =>
        match (rem.dropWhile isJsonWs) with
        | ',' :: rem2 =>
          match parseJsonElements fuel (rem2.dropWhile isJsonWs) false with
          | some (Json.arr xs, rem3) => some (Json.arr (v :: xs), rem3)
          | _ => none
        | ']' :: rem2 => some (Json.arr [v], rem2)
        | _ => none
      | none => none

end

/-- Python `json.loads` on a whole string: one value, surrounded by optional
whitespace, nothing else. -/
def jsonLoads (l : List Char) : Option Json :=
  match parseJsonValue (l.length + 1) (l.dropWhile isJsonWs) with
  | some (v, rem) => if rem.dropWhile isJsonWs = [] then some v else none
  | none => none

/-! ## Python `str()` and `int()` on JSON values -/

/-- Is `c` an ASCII decimal digit? -/
def isAsciiDigit (c : Char) : Bool := '0' ≤ c && c ≤ '9'

/-- Validity of a digit run with optional single underscores between
digits, after its first digit (Python `int(str)` grammar). -/
def underscoreDigitsGo : List Char → Bool
  | [] => true
  | '_' :: d :: rest => isAsciiDigit d && underscoreDigitsGo rest
  | c :: rest => isAsciiDigit c && underscoreDigitsGo rest

/-- A nonempty digit run with optional single underscores strictly between
digits. -/
def validUnderscoreDigits : List Char → Bool
  | [] => false
  | c :: rest => isAsciiDigit c && underscoreDigitsGo rest

/-- Python `int(s)` on a string: strip whitespace, optional sign, digits
with optional single underscores between digits; anything else raises
(`none`). -/
def pyIntOfStr (l : List Char) : Option ℤ :=
  let s := pyStrip l
  let signed : Bool × List Char := match s with
    | '-' :: r => (true, r)
    | '+' :: r => (false, r)
    | _ => (false, s)
  if validUnderscoreDigits signed.2 then
    let n : ℤ := (digitsToNat (signed.2.filter (fun c => !(c == '_'))) : ℤ)
    some (if signed.1 then -n else n)
  else none

/-- Truncation toward zero, the behaviour of Python `int(float)`. -/
def truncRat (q : ℚ) : ℤ := if 0 ≤ q then ⌊q⌋ else ⌈q⌉

/-- Python `int(x)` on a JSON-decoded value; `none` models the raised
`TypeError`/`ValueError`. -/
def pyIntOf : Json → Option ℤ
  | Json.int i => some i
  | Json.bool b => some (if b then 1 else 0)
  | Json.float q => some (truncRat q)
  | Json.str s => pyIntOfStr s
  | _ => none

/-- `int(payload.get("chance"))` where the lookup may miss (`int(None)`
raises, hence `none`). -/
def pyIntOfOpt : Option Json → Option ℤ
  | none => none
  | some j => pyIntOf j

/-- Python `repr` of a float-valued rational; exact for integral values
(`80.0` prints as `"80.0"`), approximated by the fraction text otherwise.
Unreached by the marker protocol, which never renders floats. -/
def pyFloatRepr (q : ℚ) : List Char :=
  if q.den = 1 then (toString q.num).data ++ ".0".data
  else (toString q.num).data ++ "/".data ++ (toString q.den).data

/-- Comma-separated join for container `repr`s. -/
def joinComma : List (List Char) → List Char
  | [] => []
  | [x] => x
  | x :: y :: rest => x ++ ", ".data ++ joinComma (y :: rest)

/-- Python `repr(x)` of a JSON-decoded value (fuel bounds container
nesting; scalar cases ignore fuel so that they reduce definitionally). -/
def pyReprF (fuel : ℕ) (j : Json) : List Char :=
  match j with
  | Json.null => "None".data
  | Json.bool b => if b then "True".data else "False".data
  | Json.int i => (toString i).data
  | Json.float q => pyFloatRepr q
  | Json.str s => '\'' :: s ++ ['\'']
  | Json.arr xs =>
    match fuel with
    | 0 => "[...]".data
    | f + 1 => '[' :: joinComma (xs.map (pyReprF f)) ++ [']']
  | Json.obj kvs =>
    match fuel with
    | 0 => [Char.ofNat 0x7b] ++ "...".data ++ [Char.ofNat 0x7d]
    | f + 1 =>
      [Char.ofNat 0x7b] ++
        joinComma (kvs.map (fun kv => '\'' :: kv.1 ++ ['\''] ++ ": ".data ++ pyReprF f kv.2)) ++
        [Char.ofNat 0x7d]

mutual

/-- A fuel bound dominating the nesting depth of `j`, for `pyReprF`. -/
def jsonFuel : Json → ℕ
  | Json.arr xs => 1 + jsonFuelList xs
  | Json.obj kvs => 1 + jsonFuelKvs kvs
  | _ => 1

/-- Sum of `jsonFuel` over a list of values. -/
def jsonFuelList : List Json → ℕ
  | [] => 0
  | x :: xs => jsonFuel x + jsonFuelList xs

/-- Sum of `jsonFuel` over object members. -/
def jsonFuelKvs : List (List Char × Json) → ℕ
  | [] => 0
  | (_, v) :: kvs => jsonFuel v + jsonFuelKvs kvs

end

/-- Python `str(x)` of a JSON-decoded value: identity on strings, `repr`
otherwise (`jsonFuel j` dominates the nesting depth, so the fuel never
runs out). -/
def pyStrOf (j : Json) : List Char :=
  match j with
  | Json.str s => s
  | _ => pyReprF (jsonFuel j) j

/-! ## The action-check marker protocol (`plugin.py` lines 63-149) -/

/-- `_ACTION_CHECK_MARKER_PREFIX`. -/
def markerPrefixChars : List Char := "ACTION_CHECK_JSON:".data

/-- `_ACTION_CHECK_SENTINEL`. -/
def sentinelChars : List Char := "[impression_affection_plugin:action_check]".data

/-- `_ACTION_CHECK_CONTEXT_TTL_SECONDS`. -/
def ctxTTL : ℚ := 120

/-- `_ACTION_CHECK_PENDING_TAG_TTL_SECONDS`. -/
def tagTTL : ℚ := 60

/-- `ActionCheckContext` (`plugin.py` lines 69-75). -/
structure ActionCheckContext where
  stream_id : List Char
  interaction : List Char
  chance : ℤ
  result : List Char
  created_at : ℚ
deriving DecidableEq

/-- The capture of `\x7b[^\r\n]*\x7d` from a line run that starts with an
opening brace: everything up to the last closing brace, if any (greedy
`[^\r\n]*` followed by a literal brace backtracks to the last one). -/
def lastBraceCapture (line : List Char) : Option (List Char) :=
  let rev := line.reverse.dropWhile (fun c => !(c == '}'))
  if rev = [] then none else some rev.reverse

/-- One attempt of the marker regex
`ACTION_CHECK_JSON:\s*(\x7b[^\r\n]*\x7d)` at the head of `l`: the fixed
prefix, then a maximal `\s*` run (shorter runs cannot help, since the next
required character is a non-space brace), then the brace capture confined
to the current line.  Returns the captured group and the remainder after
the whole match. -/
def markerMatchAt (l : List Char) : Option (List Char × List Char) :=
  if markerPrefixChars.isPrefixOf l then
    let rest := (l.drop markerPrefixChars.length).dropWhile isPySpace
    match rest with
    | '{' :: _ =>
      let line := rest.takeWhile (fun c => !(c == '\r' || c == '\n'))
      match lastBraceCapture line with
      | some cap => some (cap, rest.drop cap.length)
      | none => none
    | _ => none
  else none

/-- `re.findall` scan for the marker pattern: try a match at each position,
emit the capture and resume after the match on success, advance one
character on failure.  `fuel` bounds the scan (one unit per consumed
character suffices). -/
def findallGo : ℕ → List Char → List (List Char)
  | 0, _ => []
  | _ + 1, [] => []
  | fuel + 1, c :: rest =>
    match markerMatchAt (c :: rest) with
    | some (cap, after) => cap :: findallGo fuel after
    | none => findallGo fuel rest

/-- All marker captures of `text`, in scan order (`re.findall` of
`_parse_action_check_marker`). -/
def findMarkers (text : List Char) : List (List Char) :=
  findallGo (text.length + 1) text

/-- The `result` synonym table of `_parse_action_check_marker`
(lines 121-126): normalize to exactly `success`/`fail`, reject anything
else. -/
def normalizeResult (s : List Char) : Option (List Char) :=
  if s = "ok".data ∨ s = "pass".data ∨ s = "passed".data ∨ s = "success".data then
    some "success".data
  else if s = "fail".data ∨ s = "failed".data ∨ s = "failure".data then
    some "fail".data
  else none

/-- Lookup in a JSON object as in the Python `dict` built by `json.loads`:
a duplicated key keeps its last value. -/
def jget (kvs : List (List Char × Json)) (k : List Char) : Option Json :=
  ((kvs.filter (fun kv => kv.1 = k)).getLast?).map Prod.snd

/-- `str(payload.get("interaction", "")).strip()`. -/
def interactionOf (kvs : List (List Char × Json)) : List Char :=
  pyStrip (pyStrOf ((jget kvs "interaction".data).getD (Json.str [])))

/-- `str(payload.get("result", "")).strip().lower()`. -/
def resultTokOf (kvs : List (List Char × Json)) : List Char :=
  pyLower (pyStrip (pyStrOf ((jget kvs "result".data).getD (Json.str []))))

/-- `max(0, min(100, chance))`. -/
def clampChance (c : ℤ) : ℤ := max 0 (min 100 c)

/-- Lines 109-138 of `_parse_action_check_marker`: the checks applied to
the decoded JSON payload. -/
def payloadToCtx (j : Json) (now : ℚ) : Option ActionCheckContext :=
  match j with
  | Json.obj kvs =>
    let interaction := interactionOf kvs
    let result := resultTokOf kvs
    match pyIntOfOpt (jget kvs "chance".data) with
    | none => none
    | some chance =>
      match normalizeResult result with
      | none => none
      | some result2 =>
        let chance2 := clampChance chance
        if interaction = [] then none
        else some ⟨[], interaction, chance2, result2, now⟩
  | _ => none

/-- `_parse_action_check_marker` (lines 95-138): last capture wins, then
`json.loads` and the payload checks. -/
def parseActionCheckMarker (text : List Char) (now : ℚ) : Option ActionCheckContext :=
  if text = [] then none
  else
    match (findMarkers text).getLast? with
    | none => none
    | some m =>
      match jsonLoads (pyStrip m) with
      | none => none
      | some j => payloadToCtx j now

/-- Does the multiline-anchored strip regex
`(?m)^\s*ACTION_CHECK_JSON:.*(?:\r?\n)?` match at this position (a line
start)?  `\s*` is taken maximally; shorter runs cannot match since the
next required character is the non-space `A`. -/
def markerLineAt (l : List Char) : Bool :=
  markerPrefixChars.isPrefixOf (l.dropWhile isPySpace)

/-- The remainder after a strip-regex match starting at the head of `l`:
drop the whitespace run, the prefix, the rest of the line, and its
terminator (the greedy `.*` plus the optional `\r?\n` consume through the
first newline or the end of the string). -/
def dropMarkerLine (l : List Char) : List Char :=
  match ((l.dropWhile isPySpace).drop markerPrefixChars.length).dropWhile
      (fun c => !(c == '\n')) with
  | _ :: t => t
  | [] => []

/-- The `re.sub` scan of `_strip_action_check_marker_lines`: at each
line-start position try the anchored match and delete it, otherwise keep
the character and move on.  `fuel` bounds the scan. -/
def stripMarkerGo : ℕ → Bool → List Char → List Char
  | 0, _, l => l
  | _ + 1, _, [] => []
  | fuel + 1, atStart, c :: rest =>
    if atStart && markerLineAt (c :: rest) then
      stripMarkerGo fuel true (dropMarkerLine (c :: rest))
    else
      c :: stripMarkerGo fuel (c == '\n') rest

/-- `_strip_action_check_marker_lines` (lines 141-144). -/
def stripMarkerLines (text : List Char) : List Char :=
  if text = [] then text else stripMarkerGo (text.length + 1) true text

/-- Scan of the stripped text for a surviving marker line (a position at a
line start whose suffix, after leading whitespace, carries the marker
prefix). -/
def hasMarkerLineGo : Bool → List Char → Bool
  | _, [] => false
  | atStart, c :: rest =>
    (atStart && markerLineAt (c :: rest)) || hasMarkerLineGo (c == '\n') rest

/-- Whether any line of `l` begins (after leading whitespace, possibly
spanning blank lines) with the marker prefix. -/
def hasMarkerLine (l : List Char) : Bool := hasMarkerLineGo true l

/-- `_format_action_check_tag` (lines 147-149). -/
def formatActionCheckTag (chance : ℤ) (result : List Char) : List Char :=
  "[动作检定： ".data ++ (toString chance).data ++ "% ".data ++
    (if result = "success".data then "成功".data else "失败".data) ++ "]".data

/-- The visible-marker guard string checked at Point D (line 338). -/
def tagGuardChars : List Char := "[动作检定：".data

/-! ## The relay state and the four lifecycle handlers

The two process-wide maps keyed by stream id, and the `execute` bodies of
the four `ActionCheck*Handler` classes.  A Python attribute access that may
raise is modelled as an `Except PyErr` value; the surrounding
`try/except` of each `execute` turns any raise into the pass-through
default tuple `(True, True, None, None, None)`, with the global state as
already mutated at the raise point. -/

/-- An opaque Python exception. -/
inductive PyErr where
  | err (msg : List Char)
deriving DecidableEq

deriving instance DecidableEq for Except

/-- The two `action_check.*` configuration switches read by the relay
handlers. -/
structure RelayConfig where
  enabled : Bool
  show_roll_result : Bool
deriving DecidableEq

/-- `_ACTION_CHECK_CONTEXT_BY_STREAM` and
`_ACTION_CHECK_PENDING_TAG_BY_STREAM` (lines 78-79). -/
structure RelayState where
  ctxMap : List Char → Option ActionCheckContext
  tagMap : List Char → Option (List Char × ℚ)

/-- Pointwise map update (`m[k] = v` / `m.pop(k, None)`). -/
def mapSet {α : Type} (m : List Char → Option α) (k : List Char) (v : Option α) :
    List Char → Option α :=
  fun k2 => if k2 = k then v else m k2

/-- Both maps empty. -/
def emptyRelayState : RelayState := ⟨fun _ => none, fun _ => none⟩

/-- `_clean_expired_action_check_state` (lines 86-92): lazily evict the
context of `sid` when strictly older than `ctxTTL`, then the pending tag of
`sid` when strictly older than `tagTTL`. -/
def cleanExpiredActionCheckState (sid : List Char) (now : ℚ) (s : RelayState) : RelayState :=
  let s1 : RelayState :=
    match s.ctxMap sid with
    | some c =>
      if now - c.created_at > ctxTTL then ⟨mapSet s.ctxMap sid none, s.tagMap⟩ else s
    | none => s
  match s1.tagMap sid with
  | some te =>
    if now - te.2 > tagTTL then ⟨s1.ctxMap, mapSet s1.tagMap sid none⟩ else s1
  | none => s1

/-- The five-component tuple each `execute` returns:
`(continue_processing, intercept, note, error, modified_message)`. -/
structure HandlerResult (μ : Type) where
  continueProcessing : Bool
  interceptFlag : Bool
  note : Option (List Char)
  errInfo : Option (List Char)
  msgOut : Option μ

/-- The pass-through default `(True, True, None, None, None)`. -/
def passResult {μ : Type} : HandlerResult μ := ⟨true, true, none, none, none⟩

/-- The `platform` / `user_id` entries of `message.message_base_info`. -/
structure BaseInfo where
  platform : Option (List Char)
  user_id : Option (List Char)
deriving DecidableEq

/-- The message object seen at Point A (`ON_PLAN`). -/
structure PlannerMsg where
  llm_prompt : Except PyErr (Option (List Char))
  message_base_info : Except PyErr BaseInfo
deriving DecidableEq

/-- Modelled boundary of Point A: the `UserImpression` database read
(wrapped in its own internal `try/except`, lines 180-186) and the
`f"{affection_score:.1f}"` float rendering are abstracted as the resulting
display strings interpolated into the protocol block. -/
structure PlannerEnv where
  affectionScoreDisplay : List Char
  affectionLevel : List Char

/-- The `extra_block` literal of Point A (lines 188-212), with the
surrounding newlines already stripped (`.strip("\n")` of the template). -/
def plannerExtraBlock (show_roll : Bool) (platform rawUid scoreDisp level : List Char) :
    List Char :=
  sentinelChars ++
  "\n【动作检定（action_check）插件协议】\n当你判断“用户正在尝试与麦麦进行直接动作互动”（例如：抱抱、亲亲、摸头、rua 等）时：\n1) 请在同一轮规划中同时选择 reply 与 action_check（不要只选 action_check）。\n2) action_check 的 JSON 需要包含字段：\n   - interaction: 动作名（字符串）\n   - chance: 成功率（0-100 整数，已综合基础概率/好感度/上下文）\n   - result: success 或 fail（由你根据 chance 与上下文直接决定，不要让程序随机）\n3) 必须在 JSON 代码块之前的推理文本末尾追加一行（仅当选择 action_check 时输出）：\n   ACTION_CHECK_JSON: \x7b\"interaction\":\"抱抱\",\"chance\":80,\"result\":\"fail\"\x7d\n   - 这行必须是单行严格 JSON\n   - 不要输出除这一行之外的其他 ACTION_CHECK_JSON 标记\n\n当前用户信息（供你参考）：\n- platform: ".data ++
  platform ++
  "\n- user_id: ".data ++ rawUid ++
  "\n- affection_score: ".data ++ scoreDisp ++
  "/100\n- affection_level: ".data ++ level ++
  "\n\n备注：".data ++
  (if show_roll then
    "机器人会在最终回复开头自动加上检定标签，你无需在回复正文里复述该标签。".data
   else "当前配置关闭了检定标签展示。".data)

/-- `ActionCheckPlannerPromptHandler.execute` (lines 161-218), Point A. -/
def handlerPlannerPrompt (cfg : RelayConfig) (env : PlannerEnv) (msg : Option PlannerMsg) :
    HandlerResult PlannerMsg :=
  if !cfg.enabled then passResult
  else
    match msg with
    | none => passResult
    | some m =>
      match m.llm_prompt with
      | Except.error _ => passResult
      | Except.ok pOpt =>
        match pOpt with
        | none => passResult
        | some p =>
          if p = [] then passResult
          else if pyContains p sentinelChars then passResult
          else
            match m.message_base_info with
            | Except.error _ => passResult
            | Except.ok bi =>
              let block := plannerExtraBlock cfg.show_roll_result (bi.platform.getD [])
                (bi.user_id.getD []) env.affectionScoreDisplay env.affectionLevel
              let newPrompt := pyRStrip p ++ "\n\n".data ++ block
              ⟨true, true, some "动作检定 planner 协议已注入".data, none,
                some { m with llm_prompt := Except.ok (some newPrompt) }⟩

/-- The message object seen at Point B (`POST_LLM`). -/
structure PostLLMMsg where
  llm_prompt : Except PyErr (Option (List Char))
  stream_id : Except PyErr (Option (List Char))
deriving DecidableEq

/-- The `injected` outcome block of Point B (lines 252-264), newlines
already stripped as by `.strip("\n")`. -/
def postLLMBlock (ctx : ActionCheckContext) : List Char :=
  sentinelChars ++
  "\n【动作检定结果】\n动作：".data ++ ctx.interaction ++
  "\n成功率：".data ++ (toString ctx.chance).data ++
  "%\n结果：".data ++
  (if ctx.result = "success".data then "成功".data else "失败".data) ++
  "\n\n以上信息仅供你生成回复时参考。\n注意：不要在回复中输出 ACTION_CHECK_JSON 或其他内部标记。".data

/-- `ActionCheckPostLLMHandler.execute` (lines 230-270), Point B. -/
def handlerPostLLM (cfg : RelayConfig) (now : ℚ) (msg : Option PostLLMMsg) (s : RelayState) :
    HandlerResult PostLLMMsg × RelayState :=
  if !cfg.enabled then (passResult, s)
  else
    match msg with
    | none => (passResult, s)
    | some m =>
      match m.llm_prompt with
      | Except.error _ => (passResult, s)
      | Except.ok pOpt =>
        match pOpt with
        | none => (passResult, s)
        | some p =>
          if p = [] then (passResult, s)
          else
            match m.stream_id with
            | Except.error _ => (passResult, s)
            | Except.ok sidOpt =>
              match sidOpt with
              | none => (passResult, s)
              | some sid =>
                if sid = [] then (passResult, s)
                else
                  let s1 := cleanExpiredActionCheckState sid now s
                  match parseActionCheckMarker p now with
                  | none => (passResult, ⟨mapSet s1.ctxMap sid none, s1.tagMap⟩)
                  | some parsed =>
                    let parsed2 := { parsed with stream_id := sid }
                    let s2 : RelayState := ⟨mapSet s1.ctxMap sid (some parsed2), s1.tagMap⟩
                    let newPrompt :=
                      pyRStrip (stripMarkerLines p) ++ "\n\n".data ++ postLLMBlock parsed2
                    (⟨true, true, some "动作检定结果已注入 replyer prompt".data, none,
                        some { m with llm_prompt := Except.ok (some newPrompt) }⟩, s2)

/-- The message object seen at Point C (`AFTER_LLM`). -/
structure AfterLLMMsg where
  stream_id : Except PyErr (Option (List Char))
deriving DecidableEq

/-- `ActionCheckAfterLLMHandler.execute` (lines 282-301), Point C. -/
def handlerAfterLLM (cfg : RelayConfig) (now : ℚ) (msg : Option AfterLLMMsg) (s : RelayState) :
    HandlerResult AfterLLMMsg × RelayState :=
  if !(cfg.enabled && cfg.show_roll_result) then (passResult, s)
  else
    match msg with
    | none => (passResult, s)
    | some m =>
      match m.stream_id with
      | Except.error _ => (passResult, s)
      | Except.ok sidOpt =>
        match sidOpt with
        | none => (passResult, s)
        | some sid =>
          if sid = [] then (passResult, s)
          else
            let s1 := cleanExpiredActionCheckState sid now s
            match s1.ctxMap sid with
            | none => (passResult, s1)
            | some ctx =>
              let tag := formatActionCheckTag ctx.chance ctx.result
              (⟨true, true, some "动作检定标签已准备".data, none, none⟩,
               ⟨s1.ctxMap, mapSet s1.tagMap sid (some (tag, now))⟩)

/-- One outgoing content segment: `type` and `data` attributes as read via
`getattr(·, ·, None)`; `nonstr` covers a missing, `None` or non-string
`data` payload. -/
inductive SegData where
  | pystr (s : List Char)
  | nonstr
deriving DecidableEq

/-- An outgoing message segment. -/
structure Segment where
  segType : Option (List Char)
  data : SegData
deriving DecidableEq

/-- The message object seen at Point D (`POST_SEND_PRE_PROCESS`). -/
structure PostSendMsg where
  stream_id : Except PyErr (Option (List Char))
  message_segments : Except PyErr (List Segment)
deriving DecidableEq

/-- Outcome of the segment loop of Point D (lines 331-346). -/
inductive SegLoopResult where
  | guardHit
  | applied (segs : List Segment)
  | noQualifying
deriving DecidableEq

/-- The segment loop of Point D: skip segments that are not text-typed or
whose payload is not a string; at the first qualifying segment either hit
the visible-marker guard or prepend the tag and stop. -/
def applyTagToSegs (tag : List Char) : List Segment → SegLoopResult
  | [] => SegLoopResult.noQualifying
  | seg :: rest =>
    if seg.segType ≠ some "text".data then
      match applyTagToSegs tag rest with
      | SegLoopResult.applied segs => SegLoopResult.applied (seg :: segs)
      | r => r
    else
      match seg.data with
      | SegData.nonstr =>
        match applyTagToSegs tag rest with
        | SegLoopResult.applied segs => SegLoopResult.applied (seg :: segs)
        | r => r
      | SegData.pystr t =>
        if tagGuardChars.isPrefixOf (pyLStrip t) then SegLoopResult.guardHit
        else
          SegLoopResult.applied
            ({ seg with data := SegData.pystr (pyRStrip (tag ++ ' ' :: t)) } :: rest)

/-- `ActionCheckPostSendPrefixHandler.execute` (lines 313-359), Point D. -/
def handlerPostSendPrefix (cfg : RelayConfig) (now : ℚ) (msg : Option PostSendMsg)
    (s : RelayState) : HandlerResult PostSendMsg × RelayState :=
  if !(cfg.enabled && cfg.show_roll_result) then (passResult, s)
  else
    match msg with
    | none => (passResult, s)
    | some m =>
      match m.stream_id with
      | Except.error _ => (passResult, s)
      | Except.ok sidOpt =>
        match sidOpt with
        | none => (passResult, s)
        | some sid =>
          if sid = [] then (passResult, s)
          else
            let s1 := cleanExpiredActionCheckState sid now s
            match s1.tagMap sid with
            | none => (passResult, s1)
            | some te =>
              match m.message_segments with
              | Except.error _ => (passResult, s1)
              | Except.ok segs =>
                if segs = [] then (passResult, s1)
                else
                  match applyTagToSegs te.1 segs with
                  | SegLoopResult.guardHit =>
                    (passResult, ⟨mapSet s1.ctxMap sid none, mapSet s1.tagMap sid none⟩)
                  | SegLoopResult.noQualifying => (passResult, s1)
                  | SegLoopResult.applied segs2 =>
                    (⟨true, true, some "动作检定标签已加到发送消息".data, none,
                        some { m with message_segments := Except.ok segs2 }⟩,
                     ⟨mapSet s1.ctxMap sid none, mapSet s1.tagMap sid none⟩)

/-- `ImpressionUpdateHandler.execute` (lines 379-391): initialize services
and detach the fire-and-forget update task; any raise is caught and
reported in the note.  The detached task body never reaches this return
value. -/
def impressionUpdateExecute (initOutcome : Except PyErr Unit) : HandlerResult Unit :=
  match initOutcome with
  | Except.ok _ => ⟨true, true, some "印象更新任务已启动".data, none, none⟩
  | Except.error (PyErr.err m) =>
    ⟨true, true, some ("印象更新执行失败: ".data ++ m), none, none⟩

/-! ## The update orchestrator (`ImpressionUpdateHandler.handle`, lines 432-685)

Identity resolution (lines 444-523) and the service layer
(`MessageService`, `WeightService`, `TextImpressionService`,
`AffectionService` — they live outside `src/` and are specified by §4.2-4.5
of the design) are abstracted: the resolved `user_id` / message content /
message id arrive as parameters, and the services' outcomes as an
environment record, with the control flow of `handle` translated
literally.  The trace records, in program order, the externally visible
calls the turn makes. -/

/-- The configuration slice read by the gate: `weight_filter.filter_mode`
and the two thresholds. -/
structure OrchConfig where
  filterMode : List Char
  highThreshold : ℚ
  mediumThreshold : ℚ

/-- Outcomes of the service calls a turn may perform, in the order `handle`
would issue them. -/
structure OrchEnv where
  isProcessed : Bool
  window1 : List Char × List (List Char)
  evalOutcome : Bool × ℚ × List Char
  window2 : List Char × List (List Char)
  impressionOk : Bool
  affectionOk : Bool

/-- The externally visible calls of one orchestrated turn. -/
inductive OrchEvent where
  | fetchWindow
  | recordProcessed (id : List Char)
  | evaluate
  | buildImpression
  | updateAffection
  | updateMessageState
deriving DecidableEq

/-- Result of one orchestrated turn: the ordered call trace and the
`CustomEventHandlerResult` note. -/
structure OrchResult where
  trace : List OrchEvent
  note : List Char
deriving DecidableEq

/-- The weight-filter gate (lines 625-631): `disabled` accepts, `selective`
requires `score ≥ high`, `balanced` requires `score ≥ medium`, any other
mode leaves `should_update_impression` false. -/
def filterAccepts (cfg : OrchConfig) (score : ℚ) : Bool :=
  if cfg.filterMode = "disabled".data then true
  else if cfg.filterMode = "selective".data then decide (cfg.highThreshold ≤ score)
  else if cfg.filterMode = "balanced".data then decide (cfg.mediumThreshold ≤ score)
  else false

/-- `weight_success` after lines 593-609: stays false when the filtered
context is empty (evaluation skipped), otherwise the evaluator's flag. -/
def weightSuccessOf (env : OrchEnv) : Bool :=
  if pyStrip env.window1.1 = [] then false else env.evalOutcome.1

/-- `should_update_impression` (lines 613-635). -/
def shouldUpdateImpression (cfg : OrchConfig) (env : OrchEnv) : Bool :=
  if pyStrip env.window1.1 = [] then false
  else if weightSuccessOf env then filterAccepts cfg env.evalOutcome.2.1
  else false

/-- `ImpressionUpdateHandler.handle` from the resolved identity onward
(lines 521-685): empty-id/content early exits, ledger dedup, window fetch,
immediate mark-processed of the fetched ids, emptiness check, weight
evaluation, impression gate, unconditional affection update, message-state
persistence. -/
def orchestratorHandle (cfg : OrchConfig) (userId content _messageId : List Char)
    (env : OrchEnv) : OrchResult :=
  if userId = [] then ⟨[], "无法获取用户ID".data⟩
  else if content = [] then ⟨[], "消息内容为空".data⟩
  else if env.isProcessed then ⟨[], "消息已处理，跳过".data⟩
  else
    ⟨OrchEvent.fetchWindow :: env.window1.2.map OrchEvent.recordProcessed ++
        (if pyStrip env.window1.1 = [] then [] else [OrchEvent.evaluate]) ++
        (if shouldUpdateImpression cfg env then
          [OrchEvent.fetchWindow, OrchEvent.buildImpression]
         else []) ++
        [OrchEvent.updateAffection, OrchEvent.updateMessageState],
      "印象和好感度更新完成".data⟩

/-! ## Helper lemmas -/

/-- `pyContains` agrees with list infix. -/
theorem pyContains_iff {hay needle : List Char} :
    pyContains hay needle = true ↔ needle <:+: hay := by
  constructor
  · intro h
    rcases List.any_eq_true.mp h with ⟨t, ht, hpre⟩
    exact List.infix_iff_prefix_suffix.mpr
      ⟨t, List.isPrefixOf_iff_prefix.mp hpre, (List.mem_tails _ _).mp ht⟩
  · intro h
    rcases List.infix_iff_prefix_suffix.mp h with ⟨t, hpre, hsuf⟩
    exact List.any_eq_true.mpr
      ⟨t, (List.mem_tails _ _).mpr hsuf, List.isPrefixOf_iff_prefix.mpr hpre⟩

/-! ## Claim C1 -/

/-- C1, counterexample: a turn whose fetched window is empty still runs the
affection update (the Score Derivation Path): the trace is exactly
window-fetch, affection update, message-state persistence — no profile
derivation, but the affection path did run, refuting "when the window is
empty …, neither derivation path runs". -/
theorem c1_counterexample :
    orchestratorHandle ⟨"selective".data, 70, 40⟩ "u1".data "hi".data "m1".data
        ⟨false, ([], []), (false, 0, "low".data), ([], []), false, false⟩ =
      ⟨[OrchEvent.fetchWindow, OrchEvent.updateAffection, OrchEvent.updateMessageState],
        "印象和好感度更新完成".data⟩ ∧
    OrchEvent.updateAffection ∈
      (orchestratorHandle ⟨"selective".data, 70, 40⟩ "u1".data "hi".data "m1".data
        ⟨false, ([], []), (false, 0, "low".data), ([], []), false, false⟩).trace := by
  constructor
  · decide
  · decide

/-- C1, amended: for every turn that passes the empty-id/content and ledger
early exits, the *Profile* Derivation Path runs exactly when the gate
passes (window non-empty, weight evaluation succeeded, and the configured
filter mode accepts the score), while the *Score* Derivation Path (the
affection update) runs unconditionally, even when the window is empty or
evaluation failed. -/
theorem c1_profile_gated_affection_unconditional (cfg : OrchConfig)
    (userId content mid : List Char) (env : OrchEnv)
    (hu : userId ≠ []) (hc : content ≠ []) (hp : env.isProcessed = false) :
    ((OrchEvent.buildImpression ∈
        (orchestratorHandle cfg userId content mid env).trace) ↔
      (pyStrip env.window1.1 ≠ [] ∧ env.evalOutcome.1 = true ∧
        filterAccepts cfg env.evalOutcome.2.1 = true)) ∧
    OrchEvent.updateAffection ∈ (orchestratorHandle cfg userId content mid env).trace := by
  unfold orchestratorHandle
  rw [if_neg hu, if_neg hc, if_neg (by simp [hp])]
  by_cases hwin : pyStrip env.window1.1 = []
  · simp [shouldUpdateImpression, hwin]
  · by_cases hws : env.evalOutcome.1 = true
    · by_cases hacc : filterAccepts cfg env.evalOutcome.2.1 = true
      · simp [shouldUpdateImpression, weightSuccessOf, hwin, hws, hacc]
      · simp [shouldUpdateImpression, weightSuccessOf, hwin, hws, hacc]
    · simp [shouldUpdateImpression, weightSuccessOf, hwin, hws]

/-! ## Claim C2 -/

/-- C2: a turn already in the processed ledger terminates as skipped with
an empty call trace (no window fetch, no evaluation, no derivation);
otherwise the trace starts with the window fetch immediately followed by a
processed-record call for every id of the fetched window, and no recording
happens anywhere later — in particular evaluation and both derivation
paths can only occur after all ids are recorded, whatever their
outcomes. -/
theorem c2_ledger_skip_and_immediate_marking (cfg : OrchConfig)
    (userId content mid : List Char) (env : OrchEnv)
    (hu : userId ≠ []) (hc : content ≠ []) :
    (env.isProcessed = true →
      orchestratorHandle cfg userId content mid env = ⟨[], "消息已处理，跳过".data⟩) ∧
    (env.isProcessed = false →
      ∃ rest, (orchestratorHandle cfg userId content mid env).trace =
          OrchEvent.fetchWindow :: env.window1.2.map OrchEvent.recordProcessed ++ rest ∧
        ∀ id, OrchEvent.recordProcessed id ∉ rest) := by
  constructor
  · intro hp
    unfold orchestratorHandle
    rw [if_neg hu, if_neg hc, if_pos hp]
  · intro hp
    unfold orchestratorHandle
    rw [if_neg hu, if_neg hc, if_neg (by simp [hp])]
    refine ⟨(if pyStrip env.window1.1 = [] then [] else [OrchEvent.evaluate]) ++
        (if shouldUpdateImpression cfg env then
          [OrchEvent.fetchWindow, OrchEvent.buildImpression]
         else []) ++
        [OrchEvent.updateAffection, OrchEvent.updateMessageState], by simp, ?_⟩
    intro id
    split <;> split <;> simp

/-- C1 witness: the amended gating statement instantiated on a concrete
turn (selective mode, threshold 70, a successful evaluation scoring 80 on
a non-empty window). -/
theorem c1_witness :
    ("u1".data ≠ ([] : List Char)) ∧ ("hi".data ≠ ([] : List Char)) ∧
    (OrchEnv.mk false ("x".data, ["m0".data]) (true, 80, "high".data) ([], [])
        true true).isProcessed = false ∧
    (((OrchEvent.buildImpression ∈
        (orchestratorHandle ⟨"selective".data, 70, 40⟩ "u1".data "hi".data "m1".data
          (OrchEnv.mk false ("x".data, ["m0".data]) (true, 80, "high".data) ([], [])
            true true)).trace) ↔
      (pyStrip (OrchEnv.mk false ("x".data, ["m0".data]) (true, 80, "high".data) ([], [])
          true true).window1.1 ≠ [] ∧
        (OrchEnv.mk false ("x".data, ["m0".data]) (true, 80, "high".data) ([], [])
          true true).evalOutcome.1 = true ∧
        filterAccepts ⟨"selective".data, 70, 40⟩
          (OrchEnv.mk false ("x".data, ["m0".data]) (true, 80, "high".data) ([], [])
            true true).evalOutcome.2.1 = true)) ∧
    OrchEvent.updateAffection ∈
      (orchestratorHandle ⟨"selective".data, 70, 40⟩ "u1".data "hi".data "m1".data
        (OrchEnv.mk false ("x".data, ["m0".data]) (true, 80, "high".data) ([], [])
          true true)).trace) :=
  ⟨by decide, by decide, by decide,
    c1_profile_gated_affection_unconditional ⟨"selective".data, 70, 40⟩ "u1".data "hi".data
      "m1".data
      (OrchEnv.mk false ("x".data, ["m0".data]) (true, 80, "high".data) ([], []) true true)
      (by decide) (by decide) (by decide)⟩

/-- C2 witness: the dedup/marking statement instantiated on a concrete
turn whose fetched window carries two message ids. -/
theorem c2_witness :
    ("u1".data ≠ ([] : List Char)) ∧ ("hi".data ≠ ([] : List Char)) ∧
    (((OrchEnv.mk false ("x".data, ["mA".data, "mB".data]) (true, 80, "high".data) ([], [])
          true true).isProcessed = true →
      orchestratorHandle ⟨"selective".data, 70, 40⟩ "u1".data "hi".data "m1".data
          (OrchEnv.mk false ("x".data, ["mA".data, "mB".data]) (true, 80, "high".data)
            ([], []) true true) =
        ⟨[], "消息已处理，跳过".data⟩) ∧
    ((OrchEnv.mk false ("x".data, ["mA".data, "mB".data]) (true, 80, "high".data) ([], [])
          true true).isProcessed = false →
      ∃ rest, (orchestratorHandle ⟨"selective".data, 70, 40⟩ "u1".data "hi".data "m1".data
          (OrchEnv.mk false ("x".data, ["mA".data, "mB".data]) (true, 80, "high".data)
            ([], []) true true)).trace =
          OrchEvent.fetchWindow ::
            (OrchEnv.mk false ("x".data, ["mA".data, "mB".data]) (true, 80, "high".data)
              ([], []) true true).window1.2.map OrchEvent.recordProcessed ++ rest ∧
        ∀ id, OrchEvent.recordProcessed id ∉ rest)) :=
  ⟨by decide, by decide,
    c2_ledger_skip_and_immediate_marking ⟨"selective".data, 70, 40⟩ "u1".data "hi".data
      "m1".data
      (OrchEnv.mk false ("x".data, ["mA".data, "mB".data]) (true, 80, "high".data) ([], [])
        true true)
      (by decide) (by decide)⟩

/-! ## Claim C8: TTL eviction lemmas -/

/-- Evicting an expired context commutes with deleting it up front: the
cleanup step cannot tell an expired entry from an absent one. -/
theorem cleanExpired_erase_ctx (s : RelayState) (sid : List Char) (now : ℚ)
    (c : ActionCheckContext) (h : s.ctxMap sid = some c)
    (hexp : now - c.created_at > ctxTTL) :
    cleanExpiredActionCheckState sid now s =
      cleanExpiredActionCheckState sid now ⟨mapSet s.ctxMap sid none, s.tagMap⟩ := by
  unfold cleanExpiredActionCheckState
  simp only [h, hexp, if_true, mapSet, if_pos rfl]

/-- Evicting an expired pending tag commutes with deleting it up front. -/
theorem cleanExpired_erase_tag (s : RelayState) (sid : List Char) (now : ℚ)
    (te : List Char × ℚ) (h : s.tagMap sid = some te) (hexp : now - te.2 > tagTTL) :
    cleanExpiredActionCheckState sid now s =
      cleanExpiredActionCheckState sid now ⟨s.ctxMap, mapSet s.tagMap sid none⟩ := by
  unfold cleanExpiredActionCheckState
  cases hc : s.ctxMap sid with
  | none =>
    simp only [hc, h, hexp, if_true, mapSet, if_pos rfl]
  | some c =>
    by_cases hce : now - c.created_at > ctxTTL
    · simp only [hc, h, hexp, hce, if_true, mapSet, if_pos rfl]
    · simp only [hc, h, hexp, hce, if_false, if_true, mapSet, if_pos rfl]

/-- C8: at the relay entry points the per-conversation state is lazily
evicted before any use.  (i) An `OutcomeContext` strictly older than the
120-second TTL is removed by the entry cleanup, (ii) so is a `PendingTag`
strictly older than its 60-second TTL, (iii) the cleanup touches no other
conversation's entries (lazy, no background sweep), and (iv)-(vii) each of
Points B, C and D behaves on a state holding an expired entry exactly as
on the state with that entry deleted — in particular an `OutcomeContext`
created at `t0` and accessed at `t0 + 121` is treated as absent. -/
theorem c8_ttl_lazy_eviction :
    (∀ (s : RelayState) (sid : List Char) (now : ℚ) (c : ActionCheckContext),
      s.ctxMap sid = some c → now - c.created_at > ctxTTL →
        (cleanExpiredActionCheckState sid now s).ctxMap sid = none) ∧
    (∀ (s : RelayState) (sid : List Char) (now : ℚ) (te : List Char × ℚ),
      s.tagMap sid = some te → now - te.2 > tagTTL →
        (cleanExpiredActionCheckState sid now s).tagMap sid = none) ∧
    (∀ (s : RelayState) (sid k : List Char) (now : ℚ), k ≠ sid →
      (cleanExpiredActionCheckState sid now s).ctxMap k = s.ctxMap k ∧
      (cleanExpiredActionCheckState sid now s).tagMap k = s.tagMap k) ∧
    (∀ (cfg : RelayConfig) (now : ℚ) (p sid : List Char) (s : RelayState)
        (c : ActionCheckContext),
      cfg.enabled = true → p ≠ [] → sid ≠ [] → s.ctxMap sid = some c →
      now - c.created_at > ctxTTL →
        handlerPostLLM cfg now (some ⟨Except.ok (some p), Except.ok (some sid)⟩) s =
        handlerPostLLM cfg now (some ⟨Except.ok (some p), Except.ok (some sid)⟩)
          ⟨mapSet s.ctxMap sid none, s.tagMap⟩) ∧
    (∀ (cfg : RelayConfig) (now : ℚ) (sid : List Char) (s : RelayState)
        (c : ActionCheckContext),
      cfg.enabled = true → cfg.show_roll_result = true → sid ≠ [] →
      s.ctxMap sid = some c → now - c.created_at > ctxTTL →
        handlerAfterLLM cfg now (some ⟨Except.ok (some sid)⟩) s =
        handlerAfterLLM cfg now (some ⟨Except.ok (some sid)⟩)
          ⟨mapSet s.ctxMap sid none, s.tagMap⟩) ∧
    (∀ (cfg : RelayConfig) (now : ℚ) (sid : List Char) (segs : List Segment)
        (s : RelayState) (c : ActionCheckContext),
      cfg.enabled = true → cfg.show_roll_result = true → sid ≠ [] →
      s.ctxMap sid = some c → now - c.created_at > ctxTTL →
        handlerPostSendPrefix cfg now (some ⟨Except.ok (some sid), Except.ok segs⟩) s =
        handlerPostSendPrefix cfg now (some ⟨Except.ok (some sid), Except.ok segs⟩)
          ⟨mapSet s.ctxMap sid none, s.tagMap⟩) ∧
    (∀ (cfg : RelayConfig) (now : ℚ) (sid : List Char) (segs : List Segment)
        (s : RelayState) (te : List Char × ℚ),
      cfg.enabled = true → cfg.show_roll_result = true → sid ≠ [] →
      s.tagMap sid = some te → now - te.2 > tagTTL →
        handlerPostSendPrefix cfg now (some ⟨Except.ok (some sid), Except.ok segs⟩) s =
        handlerPostSendPrefix cfg now (some ⟨Except.ok (some sid), Except.ok segs⟩)
          ⟨s.ctxMap, mapSet s.tagMap sid none⟩) := by
  refine ⟨?_, ?_, ?_, ?_, ?_, ?_, ?_⟩
  · intro s sid now c h hexp
    unfold cleanExpiredActionCheckState
    simp only [h, hexp, if_true]
    cases htag : s.tagMap sid with
    | none => simp [mapSet]
    | some te =>
      by_cases hte : now - te.2 > tagTTL
      · simp [htag, hte, mapSet]
      · simp [htag, hte, mapSet]
  · intro s sid now te h hexp
    unfold cleanExpiredActionCheckState
    cases hc : s.ctxMap sid with
    | none => simp [hc, h, hexp, mapSet]
    | some c =>
      by_cases hce : now - c.created_at > ctxTTL
      · simp [hc, hce, h, hexp, mapSet]
      · simp [hc, hce, h, hexp, mapSet]
  · intro s sid k now hk
    unfold cleanExpiredActionCheckState
    cases hc : s.ctxMap sid with
    | none =>
      cases htag : s.tagMap sid with
      | none => simp [hc, htag]
      | some te =>
        by_cases hte : now - te.2 > tagTTL <;> simp [hc, htag, hte, mapSet, hk]
    | some c =>
      by_cases hce : now - c.created_at > ctxTTL
      · cases htag : s.tagMap sid with
        | none => simp [hc, hce, htag, mapSet, hk]
        | some te =>
          by_cases hte : now - te.2 > tagTTL <;> simp [hc, hce, htag, hte, mapSet, hk]
      · cases htag : s.tagMap sid with
        | none => simp [hc, hce, htag, mapSet, hk]
        | some te =>
          by_cases hte : now - te.2 > tagTTL <;> simp [hc, hce, htag, hte, mapSet, hk]
  · intro cfg now p sid s c he hp hsid h hexp
    have hclean := cleanExpired_erase_ctx s sid now c h hexp
    simp only [handlerPostLLM, he, Bool.not_true, Bool.false_eq_true, if_false,
      if_neg hp, if_neg hsid, hclean]
  · intro cfg now sid s c he hs hsid h hexp
    have hclean := cleanExpired_erase_ctx s sid now c h hexp
    simp only [handlerAfterLLM, he, hs, Bool.and_self, Bool.not_true,
      Bool.false_eq_true, if_false, if_neg hsid, hclean]
  · intro cfg now sid segs s c he hs hsid h hexp
    have hclean := cleanExpired_erase_ctx s sid now c h hexp
    simp only [handlerPostSendPrefix, he, hs, Bool.and_self, Bool.not_true,
      Bool.false_eq_true, if_false, if_neg hsid, hclean]
  · intro cfg now sid segs s te he hs hsid h hexp
    have hclean := cleanExpired_erase_tag s sid now te h hexp
    simp only [handlerPostSendPrefix, he, hs, Bool.and_self, Bool.not_true,
      Bool.false_eq_true, if_false, if_neg hsid, hclean]

/-- C8 witness: the spec's own example — an `OutcomeContext` created at
`t0 = 0` and accessed through Point C at `t0 + 121` is treated exactly as
if absent. -/
theorem c8_witness :
    ((⟨true, true⟩ : RelayConfig).enabled = true) ∧
    ((⟨true, true⟩ : RelayConfig).show_roll_result = true) ∧
    ("s1".data ≠ ([] : List Char)) ∧
    ((RelayState.mk
        (mapSet (fun _ => none) "s1".data
          (some ⟨"s1".data, "hug".data, 80, "fail".data, 0⟩))
        (fun _ => none)).ctxMap "s1".data =
      some ⟨"s1".data, "hug".data, 80, "fail".data, 0⟩) ∧
    ((121 : ℚ) - (⟨"s1".data, "hug".data, 80, "fail".data, (0 : ℚ)⟩ :
        ActionCheckContext).created_at > ctxTTL) ∧
    (handlerAfterLLM ⟨true, true⟩ 121 (some ⟨Except.ok (some "s1".data)⟩)
        (RelayState.mk
          (mapSet (fun _ => none) "s1".data
            (some ⟨"s1".data, "hug".data, 80, "fail".data, 0⟩))
          (fun _ => none)) =
      handlerAfterLLM ⟨true, true⟩ 121 (some ⟨Except.ok (some "s1".data)⟩)
        ⟨mapSet
            (RelayState.mk
              (mapSet (fun _ => none) "s1".data
                (some ⟨"s1".data, "hug".data, 80, "fail".data, 0⟩))
              (fun _ => none)).ctxMap "s1".data none,
          (RelayState.mk
            (mapSet (fun _ => none) "s1".data
              (some ⟨"s1".data, "hug".data, 80, "fail".data, 0⟩))
            (fun _ => none)).tagMap⟩) :=
  ⟨rfl, rfl, by decide, by decide, by norm_num [ctxTTL],
    c8_ttl_lazy_eviction.2.2.2.2.1 ⟨true, true⟩ 121 "s1".data
      (RelayState.mk
        (mapSet (fun _ => none) "s1".data
          (some ⟨"s1".data, "hug".data, 80, "fail".data, 0⟩))
        (fun _ => none))
      ⟨"s1".data, "hug".data, 80, "fail".data, 0⟩
      rfl rfl (by decide) (by decide) (by norm_num [ctxTTL])⟩

/-! ## Claim C10 -/

/-- Cleanup is the identity when the conversation's entries are absent or
unexpired. -/
theorem cleanExpired_live (s : RelayState) (sid : List Char) (now : ℚ)
    (hc : ∀ c, s.ctxMap sid = some c → ¬(now - c.created_at > ctxTTL))
    (ht : ∀ te, s.tagMap sid = some te → ¬(now - te.2 > tagTTL)) :
    cleanExpiredActionCheckState sid now s = s := by
  unfold cleanExpiredActionCheckState
  cases hcm : s.ctxMap sid with
  | none =>
    cases htm : s.tagMap sid with
    | none => simp [hcm, htm]
    | some te => simp [hcm, htm, ht te htm]
  | some c =>
    cases htm : s.tagMap sid with
    | none => simp [hcm, htm, hc c hcm]
    | some te => simp [hcm, htm, hc c hcm, ht te htm]

/-- The Point D segment loop finds nothing when no segment is text-typed
with a string payload. -/
theorem applyTagToSegs_noQualifying (tag : List Char) (segs : List Segment)
    (h : ∀ sg ∈ segs, sg.segType ≠ some "text".data ∨ sg.data = SegData.nonstr) :
    applyTagToSegs tag segs = SegLoopResult.noQualifying := by
  induction segs with
  | nil => rfl
  | cons seg rest ih =>
    have hrest := ih (fun sg hm => h sg (List.mem_cons_of_mem _ hm))
    unfold applyTagToSegs
    by_cases hty : seg.segType = some "text".data
    · rcases h seg (List.mem_cons_self seg rest) with hty2 | hdat
      · exact absurd hty hty2
      · simp [hty, hdat, hrest]
    · simp [hty, hrest]

/-- C10, counterexample: with a live `PendingTag` (created at 70, accessed
at 125) and an *expired* `OutcomeContext` (created at 0) for the same
conversation, Point D on a message with no segments leaves the message
untouched and keeps the tag — but the `OutcomeContext` does *not* remain
stored: the entry cleanup evicts it, refuting "both remain stored". -/
theorem c10_counterexample :
    (handlerPostSendPrefix ⟨true, true⟩ 125
        (some ⟨Except.ok (some "s1".data), Except.ok []⟩)
        ⟨mapSet (fun _ => none) "s1".data
            (some ⟨"s1".data, "hug".data, 80, "fail".data, 0⟩),
          mapSet (fun _ => none) "s1".data
            (some ("[动作检定： 80% 失败]".data, 70))⟩).1.msgOut = none ∧
    (handlerPostSendPrefix ⟨true, true⟩ 125
        (some ⟨Except.ok (some "s1".data), Except.ok []⟩)
        ⟨mapSet (fun _ => none) "s1".data
            (some ⟨"s1".data, "hug".data, 80, "fail".data, 0⟩),
          mapSet (fun _ => none) "s1".data
            (some ("[动作检定： 80% 失败]".data, 70))⟩).2.tagMap "s1".data =
      some ("[动作检定： 80% 失败]".data, 70) ∧
    (handlerPostSendPrefix ⟨true, true⟩ 125
        (some ⟨Except.ok (some "s1".data), Except.ok []⟩)
        ⟨mapSet (fun _ => none) "s1".data
            (some ⟨"s1".data, "hug".data, 80, "fail".data, 0⟩),
          mapSet (fun _ => none) "s1".data
            (some ("[动作检定： 80% 失败]".data, 70))⟩).2.ctxMap "s1".data = none := by
  have h1 : ctxTTL < (125 : ℚ) := by norm_num [ctxTTL]
  have h2 : ¬(tagTTL < (125 : ℚ) - 70) := by norm_num [tagTTL]
  refine ⟨?_, ?_, ?_⟩ <;>
    simp [handlerPostSendPrefix, cleanExpiredActionCheckState, mapSet, h1, h2, passResult]

/-- C10, amended: if a live `PendingTag` exists for a conversation whose
`OutcomeContext` is absent or unexpired, and the outgoing message has no
segments or no text-typed segment with a string payload, then Point D is a
complete no-op: the message is untouched and both the `PendingTag` and the
`OutcomeContext` remain stored, available for a later outgoing message
(an *expired* `OutcomeContext` would instead be evicted by the entry's
lazy TTL cleanup). -/
theorem c10_unapplied_tag_retained (cfg : RelayConfig) (now : ℚ) (sid : List Char)
    (segs : List Segment) (s : RelayState) (te : List Char × ℚ)
    (he : cfg.enabled = true) (hs : cfg.show_roll_result = true) (hsid : sid ≠ [])
    (ht : s.tagMap sid = some te) (htl : ¬(now - te.2 > tagTTL))
    (hc : ∀ c, s.ctxMap sid = some c → ¬(now - c.created_at > ctxTTL))
    (hnq : ∀ sg ∈ segs, sg.segType ≠ some "text".data ∨ sg.data = SegData.nonstr) :
    handlerPostSendPrefix cfg now (some ⟨Except.ok (some sid), Except.ok segs⟩) s =
      (passResult, s) := by
  have hclean := cleanExpired_live s sid now hc (fun te2 hte2 => by
    rw [ht] at hte2
    cases hte2
    exact htl)
  unfold handlerPostSendPrefix
  simp only [he, hs, Bool.and_self, Bool.not_true, Bool.false_eq_true, if_false,
    if_neg hsid, hclean, ht]
  by_cases hnil : segs = []
  · simp [hnil]
  · simp only [if_neg hnil, applyTagToSegs_noQualifying te.1 segs hnq]

/-- C10 witness: a live tag (created 70, accessed 100), a live context
(created 50), and an image-only segment list — Point D changes nothing. -/
theorem c10_witness :
    ((⟨true, true⟩ : RelayConfig).enabled = true) ∧
    ((⟨true, true⟩ : RelayConfig).show_roll_result = true) ∧
    ("s1".data ≠ ([] : List Char)) ∧
    ((RelayState.mk
        (mapSet (fun _ => none) "s1".data
          (some ⟨"s1".data, "hug".data, 80, "fail".data, 50⟩))
        (mapSet (fun _ => none) "s1".data
          (some ("[动作检定： 80% 失败]".data, 70)))).tagMap "s1".data =
      some ("[动作检定： 80% 失败]".data, 70)) ∧
    (handlerPostSendPrefix ⟨true, true⟩ 100
        (some ⟨Except.ok (some "s1".data), Except.ok [⟨some "image".data, SegData.nonstr⟩]⟩)
        (RelayState.mk
          (mapSet (fun _ => none) "s1".data
            (some ⟨"s1".data, "hug".data, 80, "fail".data, 50⟩))
          (mapSet (fun _ => none) "s1".data
            (some ("[动作检定： 80% 失败]".data, 70)))) =
      (passResult,
        RelayState.mk
          (mapSet (fun _ => none) "s1".data
            (some ⟨"s1".data, "hug".data, 80, "fail".data, 50⟩))
          (mapSet (fun _ => none) "s1".data
            (some ("[动作检定： 80% 失败]".data, 70))))) :=
  ⟨rfl, rfl, by decide, by decide,
    c10_unapplied_tag_retained ⟨true, true⟩ 100 "s1".data
      [⟨some "image".data, SegData.nonstr⟩]
      (RelayState.mk
        (mapSet (fun _ => none) "s1".data
          (some ⟨"s1".data, "hug".data, 80, "fail".data, 50⟩))
        (mapSet (fun _ => none) "s1".data
          (some ("[动作检定： 80% 失败]".data, 70))))
      ("[动作检定： 80% 失败]".data, 70)
      rfl rfl (by decide) (by decide) (by norm_num [tagTTL])
      (fun c hcm => by
        have : c = ⟨"s1".data, "hug".data, 80, "fail".data, 50⟩ := by
          have h2 := hcm
          simp [mapSet] at h2
          exact h2.symm
        subst this
        norm_num [ctxTTL])
      (by decide)⟩

/-! ## Claim C9 -/

/-- C9: every public handler entry point returns normally with the
continue-processing pair `(True, True)` in its result tuple, for every
input — including `None` messages and messages whose attribute reads
raise — because every branch, the catch-all included, yields such a
tuple. -/
theorem c9_handlers_never_raise_continue :
    (∀ cfg env msg, (handlerPlannerPrompt cfg env msg).continueProcessing = true ∧
      (handlerPlannerPrompt cfg env msg).interceptFlag = true) ∧
    (∀ cfg now msg s, (handlerPostLLM cfg now msg s).1.continueProcessing = true ∧
      (handlerPostLLM cfg now msg s).1.interceptFlag = true) ∧
    (∀ cfg now msg s, (handlerAfterLLM cfg now msg s).1.continueProcessing = true ∧
      (handlerAfterLLM cfg now msg s).1.interceptFlag = true) ∧
    (∀ cfg now msg s, (handlerPostSendPrefix cfg now msg s).1.continueProcessing = true ∧
      (handlerPostSendPrefix cfg now msg s).1.interceptFlag = true) ∧
    (∀ init, (impressionUpdateExecute init).continueProcessing = true ∧
      (impressionUpdateExecute init).interceptFlag = true) := by
  refine ⟨?_, ?_, ?_, ?_, ?_⟩
  · intro cfg env msg
    simp only [handlerPlannerPrompt]
    constructor <;> (repeat' split) <;> rfl
  · intro cfg now msg s
    simp only [handlerPostLLM]
    constructor <;> (repeat' split) <;> rfl
  · intro cfg now msg s
    simp only [handlerAfterLLM]
    constructor <;> (repeat' split) <;> rfl
  · intro cfg now msg s
    simp only [handlerPostSendPrefix]
    constructor <;> (repeat' split) <;> rfl
  · intro init
    cases init with
    | ok u => exact ⟨rfl, rfl⟩
    | error e => cases e with | err m => exact ⟨rfl, rfl⟩

/-! ## Claim C4 -/

set_option maxRecDepth 4000 in
/-- The planner protocol block decomposes as the sentinel followed by a
tail, so the sentinel occurs in any prompt the block is appended to. -/
theorem plannerExtraBlock_sentinel_prefix (show_roll : Bool)
    (platform rawUid scoreDisp level : List Char) :
    ∃ r, plannerExtraBlock show_roll platform rawUid scoreDisp level =
      sentinelChars ++ r :=
  ⟨_, by
    simp only [plannerExtraBlock, List.append_assoc]
    rfl⟩

/-- Point A is a pass-through when the feature is disabled. -/
theorem plannerHandler_disabled (cfg : RelayConfig) (env : PlannerEnv)
    (msg : Option PlannerMsg) (he : cfg.enabled = false) :
    handlerPlannerPrompt cfg env msg = passResult := by
  simp only [handlerPlannerPrompt, he, Bool.not_false, if_true]

/-- Point A is a pass-through on an empty prompt. -/
theorem plannerHandler_empty (cfg : RelayConfig) (env : PlannerEnv)
    (bi : Except PyErr BaseInfo) (he : cfg.enabled = true) :
    handlerPlannerPrompt cfg env (some ⟨Except.ok (some []), bi⟩) = passResult := by
  simp only [handlerPlannerPrompt, he, Bool.not_true, Bool.false_eq_true, if_false]
  rw [if_true]

/-- Point A is a pass-through when the sentinel is already present. -/
theorem plannerHandler_sentinel (cfg : RelayConfig) (env : PlannerEnv) (p : List Char)
    (bi : Except PyErr BaseInfo) (he : cfg.enabled = true) (hp : ¬p = [])
    (h : pyContains p sentinelChars = true) :
    handlerPlannerPrompt cfg env (some ⟨Except.ok (some p), bi⟩) = passResult := by
  simp only [handlerPlannerPrompt, he, Bool.not_true, Bool.false_eq_true, if_false,
    if_neg hp, if_pos h]

/-- Point A rewrites a sentinel-free non-empty prompt by appending the
protocol block. -/
theorem plannerHandler_rewrite (cfg : RelayConfig) (env : PlannerEnv) (p : List Char)
    (bv : BaseInfo) (he : cfg.enabled = true) (hp : ¬p = [])
    (hin : ¬pyContains p sentinelChars = true) :
    handlerPlannerPrompt cfg env (some ⟨Except.ok (some p), Except.ok bv⟩) =
      ⟨true, true, some "动作检定 planner 协议已注入".data, none,
        some ⟨Except.ok (some (pyRStrip p ++ "\n\n".data ++
            plannerExtraBlock cfg.show_roll_result (bv.platform.getD [])
              (bv.user_id.getD []) env.affectionScoreDisplay env.affectionLevel)),
          Except.ok bv⟩⟩ := by
  simp only [handlerPlannerPrompt, he, Bool.not_true, Bool.false_eq_true, if_false,
    if_neg hp, if_neg hin]

/-- The effective planning prompt after one run of Point A: the modified
prompt when the handler rewrote it, the original prompt otherwise. -/
def promptAfterPlanner (cfg : RelayConfig) (env : PlannerEnv) (p : List Char)
    (bi : Except PyErr BaseInfo) : List Char :=
  match (handlerPlannerPrompt cfg env (some ⟨Except.ok (some p), bi⟩)).msgOut with
  | some m2 =>
    match m2.llm_prompt with
    | Except.ok (some q) => q
    | _ => p
  | none => p

/-- C4: a planning prompt that already contains the protocol sentinel
passes through Point A unchanged (no message rewrite at all), and hence
running Point A twice rewrites the prompt at most once: the second run is
the identity on the once-augmented prompt. -/
theorem c4_planner_injection_idempotent (cfg : RelayConfig) (env : PlannerEnv)
    (p : List Char) (bi : Except PyErr BaseInfo) :
    (pyContains p sentinelChars = true →
      (handlerPlannerPrompt cfg env (some ⟨Except.ok (some p), bi⟩)).msgOut = none) ∧
    promptAfterPlanner cfg env (promptAfterPlanner cfg env p bi) bi =
      promptAfterPlanner cfg env p bi := by
  constructor
  · intro h
    by_cases he : cfg.enabled = true
    · by_cases hp : p = []
      · subst hp
        rw [plannerHandler_empty cfg env bi he]
        rfl
      · rw [plannerHandler_sentinel cfg env p bi he hp h]
        rfl
    · rw [plannerHandler_disabled cfg env _ (by simpa using he)]
      rfl
  · by_cases he : cfg.enabled = true
    · by_cases hp : p = []
      · subst hp
        simp only [promptAfterPlanner, plannerHandler_empty cfg env bi he, passResult]
      · by_cases hin : pyContains p sentinelChars = true
        · simp only [promptAfterPlanner, plannerHandler_sentinel cfg env p bi he hp hin,
            passResult]
        · cases bi with
          | error e =>
            have hpass : handlerPlannerPrompt cfg env
                (some ⟨Except.ok (some p), Except.error e⟩) = passResult := by
              simp only [handlerPlannerPrompt, he, Bool.not_true, Bool.false_eq_true,
                if_false, if_neg hp, if_neg hin]
            simp only [promptAfterPlanner, hpass, passResult]
          | ok bv =>
            obtain ⟨r, hr⟩ := plannerExtraBlock_sentinel_prefix cfg.show_roll_result
              (bv.platform.getD []) (bv.user_id.getD [])
              env.affectionScoreDisplay env.affectionLevel
            have hsne : sentinelChars ≠ [] := by decide
            have h1 : promptAfterPlanner cfg env p (Except.ok bv) =
                pyRStrip p ++ "\n\n".data ++
                  plannerExtraBlock cfg.show_roll_result (bv.platform.getD [])
                    (bv.user_id.getD []) env.affectionScoreDisplay env.affectionLevel := by
              simp only [promptAfterPlanner, plannerHandler_rewrite cfg env p bv he hp hin]
            have hne : ¬(pyRStrip p ++ "\n\n".data ++
                plannerExtraBlock cfg.show_roll_result (bv.platform.getD [])
                  (bv.user_id.getD []) env.affectionScoreDisplay env.affectionLevel = []) := by
              rw [hr]
              simp [List.append_eq_nil, hsne]
            have hc2 : pyContains (pyRStrip p ++ "\n\n".data ++
                plannerExtraBlock cfg.show_roll_result (bv.platform.getD [])
                  (bv.user_id.getD []) env.affectionScoreDisplay env.affectionLevel)
                sentinelChars = true := by
              apply pyContains_iff.mpr
              refine ⟨pyRStrip p ++ "\n\n".data, r, ?_⟩
              rw [hr]
              simp [List.append_assoc]
            rw [h1]
            simp only [promptAfterPlanner,
              plannerHandler_sentinel cfg env _ (Except.ok bv) he hne hc2, passResult]
    · have he2 : cfg.enabled = false := by simpa using he
      simp only [promptAfterPlanner, plannerHandler_disabled cfg env _ he2, passResult]

/-- C4 witness: a prompt consisting of the sentinel itself is passed
through untouched, and the double application collapses on a concrete
sentel-free prompt. -/
theorem c4_witness :
    pyContains sentinelChars sentinelChars = true ∧
    (handlerPlannerPrompt ⟨true, true⟩ ⟨"50.0".data, "一般".data⟩
        (some ⟨Except.ok (some sentinelChars),
          Except.ok ⟨some "qq".data, some "10".data⟩⟩)).msgOut = none ∧
    promptAfterPlanner ⟨true, true⟩ ⟨"50.0".data, "一般".data⟩
        (promptAfterPlanner ⟨true, true⟩ ⟨"50.0".data, "一般".data⟩ "你好".data
          (Except.ok ⟨some "qq".data, some "10".data⟩))
        (Except.ok ⟨some "qq".data, some "10".data⟩) =
      promptAfterPlanner ⟨true, true⟩ ⟨"50.0".data, "一般".data⟩ "你好".data
        (Except.ok ⟨some "qq".data, some "10".data⟩) :=
  ⟨by decide,
    (c4_planner_injection_idempotent ⟨true, true⟩ ⟨"50.0".data, "一般".data⟩ sentinelChars
      (Except.ok ⟨some "qq".data, some "10".data⟩)).1 (by decide),
    (c4_planner_injection_idempotent ⟨true, true⟩ ⟨"50.0".data, "一般".data⟩ "你好".data
      (Except.ok ⟨some "qq".data, some "10".data⟩)).2⟩

/-! ## Claim C3 -/

/-- `rstrip` over an append whose right part does not vanish. -/
theorem pyRStrip_append (a b : List Char) (h : pyRStrip b ≠ []) :
    pyRStrip (a ++ b) = a ++ pyRStrip b := by
  have hne : b.reverse.dropWhile isPySpace ≠ [] := by
    intro hx
    exact h (by simp [pyRStrip, hx])
  have hie : (b.reverse.dropWhile isPySpace).isEmpty = false := by
    cases hx : b.reverse.dropWhile isPySpace with
    | nil => exact absurd hx hne
    | cons c tl => rfl
  unfold pyRStrip
  rw [List.reverse_append, List.dropWhile_append, hie]
  simp

/-- `rstrip` over an append whose right part strips away entirely. -/
theorem pyRStrip_append_nil (a b : List Char) (h : pyRStrip b = []) :
    pyRStrip (a ++ b) = pyRStrip a := by
  have hnil : b.reverse.dropWhile isPySpace = [] := by
    have := congrArg List.reverse h
    simpa [pyRStrip] using this
  unfold pyRStrip
  rw [List.reverse_append, List.dropWhile_append, hnil]
  rfl

/-- `lstrip` is the identity on a string starting with the tag guard. -/
theorem pyLStrip_guard_append (x : List Char) :
    pyLStrip (tagGuardChars ++ x) = tagGuardChars ++ x := by
  have h1 : tagGuardChars ++ x = '[' :: ("动作检定：".data ++ x) := rfl
  rw [h1]
  unfold pyLStrip
  rw [List.dropWhile_cons, show isPySpace '[' = false from by decide]
  simp

/-- The display tag decomposes as the guard string plus a tail. -/
theorem formatTag_guard_split (ch : ℤ) (r : List Char) :
    formatActionCheckTag ch r =
      tagGuardChars ++ (' ' :: ((toString ch).data ++ ("% ".data ++
        ((if r = "success".data then "成功".data else "失败".data) ++ "]".data)))) := by
  simp [formatActionCheckTag, tagGuardChars, List.append_assoc]

/-- The display tag survives `rstrip` unchanged (it ends in a bracket). -/
theorem pyRStrip_formatTag (ch : ℤ) (r : List Char) :
    pyRStrip (formatActionCheckTag ch r) = formatActionCheckTag ch r := by
  have h : formatActionCheckTag ch r =
      ("[动作检定： ".data ++ (toString ch).data ++ "% ".data ++
        (if r = "success".data then "成功".data else "失败".data)) ++ "]".data := rfl
  rw [h, pyRStrip_append _ _ (by decide), show pyRStrip "]".data = "]".data from by decide]

/-- After Point D prepends the tag, the first text segment starts (after
`lstrip`) with the guard marker, whatever the original text was. -/
theorem guard_prefix_of_prefixed (ch : ℤ) (r t : List Char) :
    tagGuardChars.isPrefixOf
      (pyLStrip (pyRStrip (formatActionCheckTag ch r ++ ' ' :: t))) = true := by
  have key : ∃ w, pyRStrip (formatActionCheckTag ch r ++ ' ' :: t) =
      formatActionCheckTag ch r ++ w := by
    by_cases hw : pyRStrip (' ' :: t) = []
    · exact ⟨[], by rw [pyRStrip_append_nil _ _ hw, pyRStrip_formatTag, List.append_nil]⟩
    · exact ⟨pyRStrip (' ' :: t), pyRStrip_append _ _ hw⟩
  obtain ⟨w, hwk⟩ := key
  rw [hwk, formatTag_guard_split, List.append_assoc, pyLStrip_guard_append]
  exact List.isPrefixOf_iff_prefix.mpr (List.prefix_append _ _)

/-- The pending tag survives the entry cleanup when it is still live. -/
theorem clean_tag_live (s : RelayState) (sid : List Char) (now : ℚ)
    (te : List Char × ℚ) (h : s.tagMap sid = some te) (hl : ¬(now - te.2 > tagTTL)) :
    (cleanExpiredActionCheckState sid now s).tagMap sid = some te := by
  unfold cleanExpiredActionCheckState
  cases hc : s.ctxMap sid with
  | none => simp [hc, h, hl]
  | some c =>
    by_cases hce : now - c.created_at > ctxTTL <;> simp [hc, hce, h, hl]

/-- The entry cleanup never touches the context map except to evict. -/
theorem clean_ctx_of_none (s : RelayState) (sid : List Char) (now : ℚ)
    (h : s.ctxMap sid = none) :
    (cleanExpiredActionCheckState sid now s).ctxMap sid = none := by
  unfold cleanExpiredActionCheckState
  cases htag : s.tagMap sid with
  | none => simp [h, htag]
  | some te =>
    by_cases hte : now - te.2 > tagTTL <;> simp [h, htag, hte]

/-- The Point D loop ignores a leading run of non-qualifying segments. -/
theorem applyTagToSegs_skip (tag : List Char) (pre rest : List Segment)
    (h : ∀ sg ∈ pre, sg.segType ≠ some "text".data ∨ sg.data = SegData.nonstr) :
    applyTagToSegs tag (pre ++ rest) =
      match applyTagToSegs tag rest with
      | SegLoopResult.applied segs => SegLoopResult.applied (pre ++ segs)
      | r => r := by
  induction pre with
  | nil =>
    simp only [List.nil_append]
    cases applyTagToSegs tag rest <;> rfl
  | cons sg pre ih =>
    have hrest := ih (fun x hx => h x (List.mem_cons_of_mem _ hx))
    rw [List.cons_append]
    by_cases hty : sg.segType ≠ some "text".data
    · conv_lhs => rw [applyTagToSegs]
      rw [if_pos hty, hrest]
      cases applyTagToSegs tag rest <;> simp
    · rcases h sg (List.mem_cons_self sg _) with hty2 | hdat
      · exact absurd hty2 hty
      · conv_lhs => rw [applyTagToSegs]
        rw [if_neg hty, hdat, hrest]
        cases applyTagToSegs tag rest <;> simp

/-- The first qualifying segment with the tag freshly prepended
(`seg.data = prefixed`, line 344). -/
def prefixedSeg (sg : Segment) (tag t : List Char) : Segment :=
  { sg with data := SegData.pystr (pyRStrip (tag ++ ' ' :: t)) }

/-- The Point D loop prepends the tag at the first qualifying segment when
the guard marker is absent. -/
theorem applyTagToSegs_apply (tag t : List Char) (sg : Segment) (rest : List Segment)
    (hty : sg.segType = some "text".data) (hdat : sg.data = SegData.pystr t)
    (hguard : tagGuardChars.isPrefixOf (pyLStrip t) = false) :
    applyTagToSegs tag (sg :: rest) =
      SegLoopResult.applied (prefixedSeg sg tag t :: rest) := by
  unfold applyTagToSegs prefixedSeg
  rw [if_neg (by simp [hty]), hdat]
  dsimp only
  rw [if_neg (by simp [hguard])]

/-- The Point D loop stops at the guard marker. -/
theorem applyTagToSegs_guard (tag t : List Char) (sg : Segment) (rest : List Segment)
    (hty : sg.segType = some "text".data) (hdat : sg.data = SegData.pystr t)
    (hguard : tagGuardChars.isPrefixOf (pyLStrip t) = true) :
    applyTagToSegs tag (sg :: rest) = SegLoopResult.guardHit := by
  unfold applyTagToSegs
  rw [if_neg (by simp [hty]), hdat]
  dsimp only
  rw [if_pos hguard]

/-- C3: running Point D twice in a row for the same conversation with the
same `PendingTag` prepends the display tag to the first text segment
exactly once.  The first call prepends the tag and clears both the pending
tag and the outcome context; the second call — the tag re-stashed for the
retry, the message already carrying it — hits the marker-prefix guard,
clears state again, and leaves the message untouched. -/
theorem c3_point_d_applies_tag_exactly_once
    (cfg : RelayConfig) (s : RelayState) (sid t : List Char) (ch : ℤ) (r : List Char)
    (ts ts2 now1 now2 : ℚ) (pre post : List Segment) (sg : Segment)
    (he : cfg.enabled = true) (hs : cfg.show_roll_result = true) (hsid : sid ≠ [])
    (htag : s.tagMap sid = some (formatActionCheckTag ch r, ts))
    (hlive1 : ¬(now1 - ts > tagTTL))
    (hpre : ∀ x ∈ pre, x.segType ≠ some "text".data ∨ x.data = SegData.nonstr)
    (hty : sg.segType = some "text".data) (hdat : sg.data = SegData.pystr t)
    (hguard : tagGuardChars.isPrefixOf (pyLStrip t) = false) :
    ((handlerPostSendPrefix cfg now1
        (some ⟨Except.ok (some sid), Except.ok (pre ++ sg :: post)⟩) s).1.msgOut =
      some ⟨Except.ok (some sid),
        Except.ok (pre ++ prefixedSeg sg (formatActionCheckTag ch r) t :: post)⟩) ∧
    ((handlerPostSendPrefix cfg now1
        (some ⟨Except.ok (some sid), Except.ok (pre ++ sg :: post)⟩) s).2.tagMap sid =
      none) ∧
    ((handlerPostSendPrefix cfg now1
        (some ⟨Except.ok (some sid), Except.ok (pre ++ sg :: post)⟩) s).2.ctxMap sid =
      none) ∧
    (∀ s2 : RelayState, s2.tagMap sid = some (formatActionCheckTag ch r, ts2) →
      ¬(now2 - ts2 > tagTTL) →
      ((handlerPostSendPrefix cfg now2
          (some ⟨Except.ok (some sid),
            Except.ok (pre ++ prefixedSeg sg (formatActionCheckTag ch r) t :: post)⟩)
          s2).1.msgOut = none) ∧
      ((handlerPostSendPrefix cfg now2
          (some ⟨Except.ok (some sid),
            Except.ok (pre ++ prefixedSeg sg (formatActionCheckTag ch r) t :: post)⟩)
          s2).2.tagMap sid = none) ∧
      ((handlerPostSendPrefix cfg now2
          (some ⟨Except.ok (some sid),
            Except.ok (pre ++ prefixedSeg sg (formatActionCheckTag ch r) t :: post)⟩)
          s2).2.ctxMap sid = none)) := by
  have hsegne : ¬(pre ++ sg :: post = []) := by simp
  have hclean1 := clean_tag_live s sid now1 _ htag hlive1
  have hloop1 : applyTagToSegs (formatActionCheckTag ch r) (pre ++ sg :: post) =
      SegLoopResult.applied (pre ++ prefixedSeg sg (formatActionCheckTag ch r) t :: post) := by
    rw [applyTagToSegs_skip _ _ _ hpre, applyTagToSegs_apply _ t sg post hty hdat hguard]
  refine ⟨?_, ?_, ?_, ?_⟩
  · simp only [handlerPostSendPrefix, he, hs, Bool.and_self, Bool.not_true,
      Bool.false_eq_true, if_false, if_neg hsid, hclean1, if_neg hsegne, hloop1]
  · simp only [handlerPostSendPrefix, he, hs, Bool.and_self, Bool.not_true,
      Bool.false_eq_true, if_false, if_neg hsid, hclean1, if_neg hsegne, hloop1, mapSet,
      if_pos rfl, if_true]
  · simp only [handlerPostSendPrefix, he, hs, Bool.and_self, Bool.not_true,
      Bool.false_eq_true, if_false, if_neg hsid, hclean1, if_neg hsegne, hloop1, mapSet,
      if_pos rfl, if_true]
  · intro s2 htag2 hlive2
    have hsegne2 :
        ¬(pre ++ prefixedSeg sg (formatActionCheckTag ch r) t :: post = []) := by simp
    have hclean2 := clean_tag_live s2 sid now2 _ htag2 hlive2
    have hloop2 : applyTagToSegs (formatActionCheckTag ch r)
        (pre ++ prefixedSeg sg (formatActionCheckTag ch r) t :: post) =
        SegLoopResult.guardHit := by
      rw [applyTagToSegs_skip _ _ _ hpre]
      rw [applyTagToSegs_guard (formatActionCheckTag ch r)
        (pyRStrip (formatActionCheckTag ch r ++ ' ' :: t))
        (prefixedSeg sg (formatActionCheckTag ch r) t) post
        (by simp [prefixedSeg, hty]) (by simp [prefixedSeg])
        (guard_prefix_of_prefixed ch r t)]
    refine ⟨?_, ?_, ?_⟩
    · simp only [handlerPostSendPrefix, he, hs, Bool.and_self, Bool.not_true,
        Bool.false_eq_true, if_false, if_neg hsid, hclean2, if_neg hsegne2, hloop2]
      rfl
    · simp only [handlerPostSendPrefix, he, hs, Bool.and_self, Bool.not_true,
        Bool.false_eq_true, if_false, if_neg hsid, hclean2, if_neg hsegne2, hloop2, mapSet,
        if_pos rfl, if_true]
    · simp only [handlerPostSendPrefix, he, hs, Bool.and_self, Bool.not_true,
        Bool.false_eq_true, if_false, if_neg hsid, hclean2, if_neg hsegne2, hloop2, mapSet,
        if_pos rfl, if_true]

/-- C3 witness: the double application collapsed on a concrete turn — a
single text segment "好", tag stashed at `t=0` and applied at `t=1`, then
re-stashed at `t=3` and re-run at `t=4`. -/
theorem c3_witness :
    ((⟨true, true⟩ : RelayConfig).enabled = true) ∧
    ((RelayState.mk (fun _ => none)
        (mapSet (fun _ => none) "s1".data
          (some (formatActionCheckTag 80 "fail".data, 0)))).tagMap "s1".data =
      some (formatActionCheckTag 80 "fail".data, 0)) ∧
    (tagGuardChars.isPrefixOf (pyLStrip "好".data) = false) ∧
    ((handlerPostSendPrefix ⟨true, true⟩ 1
        (some ⟨Except.ok (some "s1".data),
          Except.ok ([] ++ (⟨some "text".data, SegData.pystr "好".data⟩ : Segment) :: [])⟩)
        (RelayState.mk (fun _ => none)
          (mapSet (fun _ => none) "s1".data
            (some (formatActionCheckTag 80 "fail".data, 0))))).1.msgOut =
      some ⟨Except.ok (some "s1".data),
        Except.ok ([] ++ prefixedSeg ⟨some "text".data, SegData.pystr "好".data⟩
          (formatActionCheckTag 80 "fail".data) "好".data :: [])⟩) ∧
    ((handlerPostSendPrefix ⟨true, true⟩ 1
        (some ⟨Except.ok (some "s1".data),
          Except.ok ([] ++ (⟨some "text".data, SegData.pystr "好".data⟩ : Segment) :: [])⟩)
        (RelayState.mk (fun _ => none)
          (mapSet (fun _ => none) "s1".data
            (some (formatActionCheckTag 80 "fail".data, 0))))).2.tagMap "s1".data =
      none) ∧
    ((handlerPostSendPrefix ⟨true, true⟩ 4
        (some ⟨Except.ok (some "s1".data),
          Except.ok ([] ++ prefixedSeg ⟨some "text".data, SegData.pystr "好".data⟩
            (formatActionCheckTag 80 "fail".data) "好".data :: [])⟩)
        (RelayState.mk (fun _ => none)
          (mapSet (fun _ => none) "s1".data
            (some (formatActionCheckTag 80 "fail".data, 3))))).1.msgOut = none) ∧
    ((handlerPostSendPrefix ⟨true, true⟩ 4
        (some ⟨Except.ok (some "s1".data),
          Except.ok ([] ++ prefixedSeg ⟨some "text".data, SegData.pystr "好".data⟩
            (formatActionCheckTag 80 "fail".data) "好".data :: [])⟩)
        (RelayState.mk (fun _ => none)
          (mapSet (fun _ => none) "s1".data
            (some (formatActionCheckTag 80 "fail".data, 3))))).2.tagMap "s1".data =
      none) := by
  have h := c3_point_d_applies_tag_exactly_once ⟨true, true⟩
    (RelayState.mk (fun _ => none)
      (mapSet (fun _ => none) "s1".data (some (formatActionCheckTag 80 "fail".data, 0))))
    "s1".data "好".data 80 "fail".data 0 3 1 4 [] []
    ⟨some "text".data, SegData.pystr "好".data⟩
    rfl rfl (by decide) (by decide) (by norm_num [tagTTL]) (by simp) rfl rfl (by decide)
  have h2 := h.2.2.2
    (RelayState.mk (fun _ => none)
      (mapSet (fun _ => none) "s1".data (some (formatActionCheckTag 80 "fail".data, 3))))
    (by decide) (by norm_num [tagTTL])
  exact ⟨rfl, by decide, by decide, h.1, h.2.1, h2.1, h2.2.1⟩

/-! ## Claims C5 and C6: the marker parse -/

/-- A text with no characters has no marker captures, so a captured last
match forces the text to be non-empty. -/
theorem text_ne_nil_of_marker {text : List Char} {m : List Char}
    (hm : (findMarkers text).getLast? = some m) : text ≠ [] := by
  intro h
  subst h
  simp [findMarkers, findallGo] at hm

/-- The payload checks succeed on a well-formed object: string
`interaction` with non-empty strip, integer `chance`, recognized `result`
token. -/
theorem payloadToCtx_valid (kvs : List (List Char × Json)) (now : ℚ)
    (i : List Char) (c : ℤ) (r r2 : List Char)
    (hi : jget kvs "interaction".data = some (Json.str i)) (hine : pyStrip i ≠ [])
    (hc : jget kvs "chance".data = some (Json.int c))
    (hr : jget kvs "result".data = some (Json.str r))
    (hnorm : normalizeResult (pyLower (pyStrip r)) = some r2) :
    payloadToCtx (Json.obj kvs) now = some ⟨[], pyStrip i, clampChance c, r2, now⟩ := by
  have h1 : interactionOf kvs = pyStrip i := by
    simp [interactionOf, hi, pyStrOf]
  have h2 : resultTokOf kvs = pyLower (pyStrip r) := by
    simp [resultTokOf, hr, pyStrOf]
  simp only [payloadToCtx, h1, h2, hc, pyIntOfOpt, pyIntOf, hnorm, if_neg hine]

/-- C5, counterexample: the parser uses the *last* capture only.  A prompt
whose first marker is perfectly valid (shown by parsing it alone) but
whose last marker carries unparseable JSON fails outright, although the
prompt contains a valid decision-marker occurrence — refuting "returns the
decision of the last such (i.e. valid) occurrence". -/
theorem c5_counterexample :
    parseActionCheckMarker
        "ACTION_CHECK_JSON: \x7b\"interaction\":\"hug\",\"chance\":80,\"result\":\"fail\"\x7d".data
        5 =
      some ⟨[], "hug".data, 80, "fail".data, 5⟩ ∧
    (findMarkers
        "ACTION_CHECK_JSON: \x7b\"interaction\":\"hug\",\"chance\":80,\"result\":\"fail\"\x7d\nACTION_CHECK_JSON: \x7bbad\x7d".data).length =
      2 ∧
    parseActionCheckMarker
        "ACTION_CHECK_JSON: \x7b\"interaction\":\"hug\",\"chance\":80,\"result\":\"fail\"\x7d\nACTION_CHECK_JSON: \x7bbad\x7d".data
        5 =
      none := by
  refine ⟨by decide, by decide, by decide⟩

/-- C5, amended: parsing considers only the *last* marker capture.  When
the last capture decodes to a JSON object with a non-empty-string
`interaction`, an integer `chance`, and a `result` token in the synonym
table, the parse returns that decision, with `chance` clamped into
`[0, 100]` (unchanged when already in range) and `result` normalized to
exactly `success` or `fail`; an earlier valid occurrence is ignored, and
an invalid last occurrence fails the parse outright. -/
theorem c5_last_marker_parse (text : List Char) (now : ℚ) (m : List Char)
    (kvs : List (List Char × Json)) (i : List Char) (c : ℤ) (r r2 : List Char)
    (hm : (findMarkers text).getLast? = some m)
    (hj : jsonLoads (pyStrip m) = some (Json.obj kvs))
    (hi : jget kvs "interaction".data = some (Json.str i)) (hine : pyStrip i ≠ [])
    (hc : jget kvs "chance".data = some (Json.int c))
    (hr : jget kvs "result".data = some (Json.str r))
    (hnorm : normalizeResult (pyLower (pyStrip r)) = some r2) :
    parseActionCheckMarker text now = some ⟨[], pyStrip i, clampChance c, r2, now⟩ ∧
    0 ≤ clampChance c ∧ clampChance c ≤ 100 ∧
    (0 ≤ c → c ≤ 100 → clampChance c = c) ∧
    (r2 = "success".data ∨ r2 = "fail".data) := by
  refine ⟨?_, ?_, ?_, ?_, ?_⟩
  · have htne := text_ne_nil_of_marker hm
    simp only [parseActionCheckMarker, if_neg htne, hm, hj,
      payloadToCtx_valid kvs now i c r r2 hi hine hc hr hnorm]
  · unfold clampChance
    omega
  · unfold clampChance
    omega
  · intro h1 h2
    unfold clampChance
    omega
  · unfold normalizeResult at hnorm
    split_ifs at hnorm with hok hfail
    · exact Or.inl (Option.some.inj hnorm).symm
    · exact Or.inr (Option.some.inj hnorm).symm

/-- C5 witness: the amended statement instantiated on a concrete prompt
whose last (and only) capture has `chance` 180 — clamped to 100 — and
result token `OK`, normalized to `success`. -/
theorem c5_witness :
    ((findMarkers
        "say hi ACTION_CHECK_JSON: \x7b\"interaction\":\" hug \",\"chance\":180,\"result\":\"OK\"\x7d".data).getLast? =
      some "\x7b\"interaction\":\" hug \",\"chance\":180,\"result\":\"OK\"\x7d".data) ∧
    (jsonLoads (pyStrip "\x7b\"interaction\":\" hug \",\"chance\":180,\"result\":\"OK\"\x7d".data) =
      some (Json.obj [("interaction".data, Json.str " hug ".data),
        ("chance".data, Json.int 180), ("result".data, Json.str "OK".data)])) ∧
    (parseActionCheckMarker
        "say hi ACTION_CHECK_JSON: \x7b\"interaction\":\" hug \",\"chance\":180,\"result\":\"OK\"\x7d".data
        7 =
      some ⟨[], pyStrip " hug ".data, clampChance 180, "success".data, 7⟩ ∧
    0 ≤ clampChance 180 ∧ clampChance 180 ≤ 100 ∧
    (0 ≤ (180 : ℤ) → (180 : ℤ) ≤ 100 → clampChance 180 = 180) ∧
    ("success".data = "success".data ∨ "success".data = "fail".data)) :=
  ⟨by decide, rfl,
    c5_last_marker_parse
      "say hi ACTION_CHECK_JSON: \x7b\"interaction\":\" hug \",\"chance\":180,\"result\":\"OK\"\x7d".data
      7 "\x7b\"interaction\":\" hug \",\"chance\":180,\"result\":\"OK\"\x7d".data
      [("interaction".data, Json.str " hug ".data), ("chance".data, Json.int 180),
        ("result".data, Json.str "OK".data)]
      " hug ".data 180 "OK".data "success".data
      (by decide) rfl rfl (by decide) rfl rfl (by decide)⟩

/-- The payload checks reject an empty (or missing, hence empty)
`interaction` and an unrecognized `result` token. -/
theorem payloadToCtx_invalid (kvs : List (List Char × Json)) (now : ℚ)
    (h : interactionOf kvs = [] ∨ normalizeResult (resultTokOf kvs) = none) :
    payloadToCtx (Json.obj kvs) now = none := by
  simp only [payloadToCtx]
  cases hpc : pyIntOfOpt (jget kvs "chance".data) with
  | none => rfl
  | some c =>
    cases hn : normalizeResult (resultTokOf kvs) with
    | none => rfl
    | some r2 =>
      rcases h with h1 | h2
      · simp [h1]
      · rw [h2] at hn
        cases hn

/-- C6: when the last marker capture is malformed — the JSON does not
parse, the `interaction` field is missing or strips to empty, or the
`result` token is outside the synonym table — the parse fails outright,
and Point B on such a prompt removes any previously stored
`OutcomeContext` for the conversation and forwards the prompt unchanged
(continue/no-interception, no message rewrite). -/
theorem c6_malformed_marker_rejected (text : List Char) (now : ℚ) (m : List Char)
    (hm : (findMarkers text).getLast? = some m)
    (hbad : jsonLoads (pyStrip m) = none ∨
      (∃ kvs, jsonLoads (pyStrip m) = some (Json.obj kvs) ∧
        (interactionOf kvs = [] ∨ normalizeResult (resultTokOf kvs) = none))) :
    parseActionCheckMarker text now = none ∧
    (∀ (cfg : RelayConfig) (sid : List Char) (s : RelayState),
      cfg.enabled = true → sid ≠ [] →
      (handlerPostLLM cfg now (some ⟨Except.ok (some text), Except.ok (some sid)⟩)
          s).1 = passResult ∧
      (handlerPostLLM cfg now (some ⟨Except.ok (some text), Except.ok (some sid)⟩)
          s).2.ctxMap sid = none) := by
  have htne := text_ne_nil_of_marker hm
  have hparse : parseActionCheckMarker text now = none := by
    rcases hbad with hA | ⟨kvs, hj, hB⟩
    · simp only [parseActionCheckMarker, if_neg htne, hm, hA]
    · simp only [parseActionCheckMarker, if_neg htne, hm, hj,
        payloadToCtx_invalid kvs now hB]
  refine ⟨hparse, ?_⟩
  intro cfg sid s he hsid
  constructor
  · simp only [handlerPostLLM, he, Bool.not_true, Bool.false_eq_true, if_false,
      if_neg htne, if_neg hsid, hparse]
  · simp only [handlerPostLLM, he, Bool.not_true, Bool.false_eq_true, if_false,
      if_neg htne, if_neg hsid, hparse, mapSet, if_pos rfl, if_true]

/-- C6 witness: a prompt whose only capture has an unrecognized result
token `maybe` — parse fails and Point B drops the stale context it held
for the conversation. -/
theorem c6_witness :
    ((findMarkers
        "ACTION_CHECK_JSON: \x7b\"interaction\":\"hug\",\"chance\":80,\"result\":\"maybe\"\x7d".data).getLast? =
      some "\x7b\"interaction\":\"hug\",\"chance\":80,\"result\":\"maybe\"\x7d".data) ∧
    (jsonLoads (pyStrip "\x7b\"interaction\":\"hug\",\"chance\":80,\"result\":\"maybe\"\x7d".data) =
      some (Json.obj [("interaction".data, Json.str "hug".data),
        ("chance".data, Json.int 80), ("result".data, Json.str "maybe".data)]) ∧
      normalizeResult (resultTokOf [("interaction".data, Json.str "hug".data),
        ("chance".data, Json.int 80), ("result".data, Json.str "maybe".data)]) = none) ∧
    (parseActionCheckMarker
        "ACTION_CHECK_JSON: \x7b\"interaction\":\"hug\",\"chance\":80,\"result\":\"maybe\"\x7d".data
        9 = none ∧
    (∀ (cfg : RelayConfig) (sid : List Char) (s : RelayState),
      cfg.enabled = true → sid ≠ [] →
      (handlerPostLLM cfg 9 (some ⟨Except.ok (some
          "ACTION_CHECK_JSON: \x7b\"interaction\":\"hug\",\"chance\":80,\"result\":\"maybe\"\x7d".data),
          Except.ok (some sid)⟩) s).1 = passResult ∧
      (handlerPostLLM cfg 9 (some ⟨Except.ok (some
          "ACTION_CHECK_JSON: \x7b\"interaction\":\"hug\",\"chance\":80,\"result\":\"maybe\"\x7d".data),
          Except.ok (some sid)⟩) s).2.ctxMap sid = none)) :=
  ⟨by decide, ⟨rfl, by decide⟩,
    c6_malformed_marker_rejected
      "ACTION_CHECK_JSON: \x7b\"interaction\":\"hug\",\"chance\":80,\"result\":\"maybe\"\x7d".data
      9 "\x7b\"interaction\":\"hug\",\"chance\":80,\"result\":\"maybe\"\x7d".data
      (by decide)
      (Or.inr ⟨[("interaction".data, Json.str "hug".data), ("chance".data, Json.int 80),
        ("result".data, Json.str "maybe".data)], rfl, Or.inr (by decide)⟩)⟩

/-! ## Claim C7: the strip scan leaves no marker line -/

/-- The marker-line test skips a leading whitespace character. -/
theorem markerLineAt_cons_space (c : Char) (xs : List Char) (h : isPySpace c = true) :
    markerLineAt (c :: xs) = markerLineAt xs := by
  simp [markerLineAt, List.dropWhile_cons, h]

/-- At a non-space head the marker-line test is a plain prefix test. -/
theorem markerLineAt_cons_nonspace (c : Char) (xs : List Char) (h : isPySpace c = false) :
    markerLineAt (c :: xs) = markerPrefixChars.isPrefixOf (c :: xs) := by
  simp [markerLineAt, List.dropWhile_cons, h]

/-- A newline-free prefix of the mid-line scan output is already a prefix
of the input: with the line-start flag down, the scan copies characters
until the next newline. -/
theorem stripGo_prefix_transfer (s : List Char) (hnl : ∀ c ∈ s, c ≠ '\n') :
    ∀ (fuel : ℕ) (l : List Char),
      s.isPrefixOf (stripMarkerGo fuel false l) = true → s.isPrefixOf l = true := by
  induction s with
  | nil => intro fuel l _; simp
  | cons c s2 ih =>
    intro fuel l h
    cases fuel with
    | zero => simp only [stripMarkerGo] at h; exact h
    | succ fuel =>
      cases l with
      | nil => simp [stripMarkerGo] at h
      | cons d l2 =>
        rw [show stripMarkerGo (fuel + 1) false (d :: l2) =
            d :: stripMarkerGo fuel (d == '\n') l2 from by
          simp [stripMarkerGo]] at h
        simp only [List.isPrefixOf, Bool.and_eq_true, beq_iff_eq] at h ⊢
        obtain ⟨hcd, hpre⟩ := h
        subst hcd
        have hdn : (c == '\n') = false := by
          have := hnl c (List.mem_cons_self c s2)
          simpa using this
        rw [hdn] at hpre
        exact ⟨rfl, ih (fun x hx => hnl x (List.mem_cons_of_mem _ hx)) fuel l2 hpre⟩

/-- A marker line in the scan's output witnesses a marker line at the same
position of the input: stripping never *creates* a line that begins, after
leading whitespace, with the marker prefix. -/
theorem markerLineAt_stripGo :
    ∀ (fuel : ℕ) (b : Bool) (l : List Char),
      markerLineAt (stripMarkerGo fuel b l) = true → markerLineAt l = true := by
  intro fuel
  induction fuel with
  | zero => intro b l h; simpa [stripMarkerGo] using h
  | succ fuel ih =>
    intro b l h
    cases l with
    | nil => simpa [stripMarkerGo] using h
    | cons c rest =>
      by_cases hb : (b && markerLineAt (c :: rest)) = true
      · rw [Bool.and_eq_true] at hb
        exact hb.2
      · rw [show stripMarkerGo (fuel + 1) b (c :: rest) =
            c :: stripMarkerGo fuel (c == '\n') rest from by
          simp [stripMarkerGo, hb]] at h
        by_cases hsp : isPySpace c = true
        · rw [markerLineAt_cons_space c _ hsp] at h
          rw [markerLineAt_cons_space c _ hsp]
          by_cases hcn : (c == '\n') = true
          · rw [hcn] at h
            exact ih true rest h
          · rw [Bool.not_eq_true] at hcn
            rw [hcn] at h
            exact ih false rest h
        · rw [Bool.not_eq_true] at hsp
          rw [markerLineAt_cons_nonspace c _ hsp] at h
          rw [markerLineAt_cons_nonspace c _ hsp]
          rw [show markerPrefixChars = 'A' :: "CTION_CHECK_JSON:".data from rfl] at h ⊢
          simp only [List.isPrefixOf, Bool.and_eq_true, beq_iff_eq] at h ⊢
          obtain ⟨hca, hpre⟩ := h
          have hcn : (c == '\n') = false := by
            rw [← hca]
            decide
          rw [hcn] at hpre
          exact ⟨hca, stripGo_prefix_transfer "CTION_CHECK_JSON:".data (by decide)
            fuel rest hpre⟩

/-- A present marker line makes the strip-regex match consume at least the
prefix, so the remainder is strictly shorter. -/
theorem dropMarkerLine_length_lt (l : List Char) (h : markerLineAt l = true) :
    (dropMarkerLine l).length < l.length := by
  have hd : markerPrefixChars.length ≤ (l.dropWhile isPySpace).length := by
    have hp : markerPrefixChars <+: l.dropWhile isPySpace :=
      List.isPrefixOf_iff_prefix.mp h
    exact hp.length_le
  have hlen : markerPrefixChars.length = 18 := by decide
  have hdw : (l.dropWhile isPySpace).length ≤ l.length :=
    (List.dropWhile_suffix isPySpace).length_le
  have hbound : (dropMarkerLine l).length ≤
      ((l.dropWhile isPySpace).drop markerPrefixChars.length).length := by
    unfold dropMarkerLine
    cases hc : ((l.dropWhile isPySpace).drop markerPrefixChars.length).dropWhile
        (fun c => !(c == '\n')) with
    | nil => simp
    | cons x t =>
      have ht : (x :: t).length ≤
          ((l.dropWhile isPySpace).drop markerPrefixChars.length).length := by
        rw [← hc]
        exact (List.dropWhile_suffix _).length_le
      show t.length ≤ ((l.dropWhile isPySpace).drop markerPrefixChars.length).length
      simp only [List.length_cons] at ht
      omega
  rw [List.length_drop] at hbound
  omega

/-- C7 core theorem: scanning the strip output from any position finds no
marker line, for any sufficient fuel. -/
theorem hasMarkerLineGo_stripGo :
    ∀ (fuel : ℕ) (b : Bool) (l : List Char), l.length ≤ fuel →
      hasMarkerLineGo b (stripMarkerGo fuel b l) = false := by
  intro fuel
  induction fuel with
  | zero =>
    intro b l hl
    have : l = [] := List.length_eq_zero.mp (Nat.le_zero.mp hl)
    subst this
    rfl
  | succ fuel ih =>
    intro b l hl
    cases l with
    | nil => rfl
    | cons c rest =>
      simp only [List.length_cons, Nat.succ_le_succ_iff] at hl
      by_cases hb : (b && markerLineAt (c :: rest)) = true
      · rw [show stripMarkerGo (fuel + 1) b (c :: rest) =
            stripMarkerGo fuel true (dropMarkerLine (c :: rest)) from by
          simp [stripMarkerGo, hb]]
        rw [Bool.and_eq_true] at hb
        have hbt : b = true := hb.1
        have hml : markerLineAt (c :: rest) = true := hb.2
        have hlt := dropMarkerLine_length_lt (c :: rest) hml
        rw [hbt]
        exact ih true (dropMarkerLine (c :: rest)) (by
          simp only [List.length_cons] at hlt
          omega)
      · rw [show stripMarkerGo (fuel + 1) b (c :: rest) =
            c :: stripMarkerGo fuel (c == '\n') rest from by
          simp [stripMarkerGo, hb]]
        have h2 := ih (c == '\n') rest hl
        simp only [hasMarkerLineGo, h2, Bool.or_false]
        by_cases hbt : b = true
        · subst hbt
          simp only [Bool.true_and] at hb ⊢
          rw [Bool.not_eq_true] at hb
          by_cases hml2 : markerLineAt (c :: stripMarkerGo fuel (c == '\n') rest) = true
          · have := markerLineAt_stripGo (fuel + 1) true (c :: rest) (by
              rw [show stripMarkerGo (fuel + 1) true (c :: rest) =
                  c :: stripMarkerGo fuel (c == '\n') rest from by
                simp [stripMarkerGo, hb]]
              exact hml2)
            rw [this] at hb
            cases hb
          · rw [Bool.not_eq_true] at hml2
            exact hml2
        · rw [Bool.not_eq_true] at hbt
          rw [hbt]
          rfl

/-- No line of the stripped prompt begins, after leading whitespace, with
the marker prefix. -/
theorem hasMarkerLine_stripMarkerLines (text : List Char) :
    hasMarkerLine (stripMarkerLines text) = false := by
  unfold stripMarkerLines
  by_cases ht : text = []
  · rw [if_pos ht, ht]
    rfl
  · rw [if_neg ht]
    exact hasMarkerLineGo_stripGo (text.length + 1) true text (Nat.le_succ _)

/-- The prompt carried by a Point B handler result (empty when the message
was not rewritten). -/
def postLLMPromptOf (res : HandlerResult PostLLMMsg) : List Char :=
  match res.msgOut with
  | some m2 =>
    match m2.llm_prompt with
    | Except.ok (some q) => q
    | _ => []
  | none => []

set_option maxRecDepth 8000 in
/-- C7, counterexample: a marker occurrence in the *middle* of a line is
parsed (the findall scan is not line-anchored) but survives the line-based
strip, so the forwarded prompt still contains a decision-marker
occurrence, refuting "so that the forwarded prompt contains no
decision-marker occurrences". -/
theorem c7_counterexample :
    ((handlerPostLLM ⟨true, true⟩ 0
        (some ⟨Except.ok (some
          "x ACTION_CHECK_JSON: \x7b\"interaction\":\"hug\",\"chance\":80,\"result\":\"fail\"\x7d".data),
          Except.ok (some "s1".data)⟩) emptyRelayState).1.msgOut ≠ none) ∧
    findMarkers (postLLMPromptOf (handlerPostLLM ⟨true, true⟩ 0
        (some ⟨Except.ok (some
          "x ACTION_CHECK_JSON: \x7b\"interaction\":\"hug\",\"chance\":80,\"result\":\"fail\"\x7d".data),
          Except.ok (some "s1".data)⟩) emptyRelayState).1) ≠ [] := by
  refine ⟨by decide, by decide⟩

/-- C7, amended: on a successful parse, Point B stores the decision as the
conversation's `OutcomeContext` — overwriting whatever was stored for that
conversation — removes every marker *line* from the prompt (no line of the
stripped prompt begins, after leading whitespace, with the marker prefix;
a marker occurrence in the middle of a line may survive), and forwards the
right-stripped result with the human-readable outcome block appended. -/
theorem c7_point_b_stores_strips_appends (cfg : RelayConfig) (now : ℚ)
    (p sid : List Char) (s : RelayState) (ctx : ActionCheckContext)
    (he : cfg.enabled = true) (hp : p ≠ []) (hsid : sid ≠ [])
    (hparse : parseActionCheckMarker p now = some ctx) :
    ((handlerPostLLM cfg now (some ⟨Except.ok (some p), Except.ok (some sid)⟩)
        s).2.ctxMap sid = some { ctx with stream_id := sid }) ∧
    ((handlerPostLLM cfg now (some ⟨Except.ok (some p), Except.ok (some sid)⟩)
        s).1.msgOut =
      some ⟨Except.ok (some (pyRStrip (stripMarkerLines p) ++ "\n\n".data ++
        postLLMBlock { ctx with stream_id := sid })), Except.ok (some sid)⟩) ∧
    hasMarkerLine (stripMarkerLines p) = false := by
  refine ⟨?_, ?_, hasMarkerLine_stripMarkerLines p⟩
  · simp only [handlerPostLLM, he, Bool.not_true, Bool.false_eq_true, if_false,
      if_neg hp, if_neg hsid, hparse, mapSet, if_pos rfl, if_true]
  · simp only [handlerPostLLM, he, Bool.not_true, Bool.false_eq_true, if_false,
      if_neg hp, if_neg hsid, hparse]

/-- C7 witness: the amended statement instantiated on a concrete two-line
prompt whose marker line is stripped and whose decision lands in the
context map. -/
theorem c7_witness :
    (parseActionCheckMarker
        "think...\nACTION_CHECK_JSON: \x7b\"interaction\":\"hug\",\"chance\":80,\"result\":\"fail\"\x7d".data
        2 =
      some ⟨[], "hug".data, 80, "fail".data, 2⟩) ∧
    (((handlerPostLLM ⟨true, true⟩ 2
        (some ⟨Except.ok (some
          "think...\nACTION_CHECK_JSON: \x7b\"interaction\":\"hug\",\"chance\":80,\"result\":\"fail\"\x7d".data),
          Except.ok (some "s1".data)⟩) emptyRelayState).2.ctxMap "s1".data =
      some { (⟨[], "hug".data, 80, "fail".data, 2⟩ : ActionCheckContext) with
        stream_id := "s1".data }) ∧
    ((handlerPostLLM ⟨true, true⟩ 2
        (some ⟨Except.ok (some
          "think...\nACTION_CHECK_JSON: \x7b\"interaction\":\"hug\",\"chance\":80,\"result\":\"fail\"\x7d".data),
          Except.ok (some "s1".data)⟩) emptyRelayState).1.msgOut =
      some ⟨Except.ok (some (pyRStrip (stripMarkerLines
          "think...\nACTION_CHECK_JSON: \x7b\"interaction\":\"hug\",\"chance\":80,\"result\":\"fail\"\x7d".data) ++
        "\n\n".data ++
        postLLMBlock { (⟨[], "hug".data, 80, "fail".data, 2⟩ : ActionCheckContext) with
          stream_id := "s1".data })), Except.ok (some "s1".data)⟩) ∧
    hasMarkerLine (stripMarkerLines
        "think...\nACTION_CHECK_JSON: \x7b\"interaction\":\"hug\",\"chance\":80,\"result\":\"fail\"\x7d".data) =
      false) :=
  ⟨by decide,
    c7_point_b_stores_strips_appends ⟨true, true⟩ 2
      "think...\nACTION_CHECK_JSON: \x7b\"interaction\":\"hug\",\"chance\":80,\"result\":\"fail\"\x7d".data
      "s1".data emptyRelayState ⟨[], "hug".data, 80, "fail".data, 2⟩
      rfl (by decide) (by decide) (by decide)⟩

end ImpressionPlugin
